import Mathlib

/-! # Sensor action example of the DASH7 stack

A shallow embedding of `stack/apps/sensor_action/sensor.c`: the periodic
measurement task `execute_sensor_measurement`, the file registrations of
`init_user_files` and the calls of `bootstrap`; and of the radio interrupt table
and the documented radio parameters of `d7aoss/ral/cc430/cc430_registers.h`
(namespace `CC430`).

The file system (`fs.h`), the ALP constants (`alp.h`), the session types
(`d7asp.h`) and the timer are not part of the sources.  Constants taken from
those headers are collected in `StackConsts` and left open; the file store
itself is modelled from the design specification, and every such definition
says so in its doc comment.

Machine integers are `Nat`/`Int` with explicit reductions modulo `2^8`,
`2^16` and `2^32`; the radio formulas are evaluated over the rationals.
-/

set_option autoImplicit false

namespace SensorAction

/-! ## Constants -/

/-- Enumeration constants that `sensor.c` takes from headers outside the
sources (`alp.h`, `fs.h`, `d7asp.h`, `timer.h`).  Their numeric values are not
fixed here: every statement below holds for all of them. -/
structure StackConsts where
  ALP_OP_READ_FILE_DATA : Nat
  ALP_ACT_COND_WRITE : Nat
  FS_STORAGE_VOLATILE : Nat
  FS_STORAGE_PERMANENT : Nat
  SESSION_RESP_MODE_NO : Nat
  SESSION_RETRY_MODE_NO : Nat
  AES_NONE : Nat
  ID_TYPE_NOID : Nat
  TIMER_TICKS_PER_SEC : Nat
  deriving DecidableEq, Repr

/-- `#define SENSOR_FILE_ID 0x40` -/
def SENSOR_FILE_ID : Nat := 0x40

/-- `#define SENSOR_FILE_SIZE 2` -/
def SENSOR_FILE_SIZE : Nat := 2

/-- `#define ACTION_FILE_ID 0x41` -/
def ACTION_FILE_ID : Nat := 0x41

/-- `#define INTERFACE_FILE_ID 0x42` -/
def INTERFACE_FILE_ID : Nat := 0x42

/-- `#define SENSOR_INTERVAL_SEC TIMER_TICKS_PER_SEC * 1` -/
def SENSOR_INTERVAL_SEC (k : StackConsts) : Nat := k.TIMER_TICKS_PER_SEC * 1

/-! ## 16-bit machine arithmetic -/

/-- Conversion of a C integer to `uint8_t`. -/
def to_uint8 (x : Nat) : Nat := x % 2 ^ 8

/-- Conversion of a C integer to `uint16_t`: the two's complement bit pattern. -/
def to_uint16 (x : Int) : Nat := (x % 2 ^ 16).toNat

/-- Conversion of a 16-bit pattern to `int16_t` (two's complement). -/
def to_int16 (u : Nat) : Int :=
  if u % 2 ^ 16 < 2 ^ 15 then ((u % 2 ^ 16 : Nat) : Int) else ((u % 2 ^ 16 : Nat) : Int) - 2 ^ 16

/-- The value range of `int16_t`. -/
def is_int16 (x : Int) : Prop := -(2 ^ 15) ≤ x ∧ x < 2 ^ 15

instance (x : Int) : Decidable (is_int16 x) := by
  unfold is_int16; exact inferInstance

/-- `__builtin_bswap16`: exchanges the two bytes of a 16-bit pattern. -/
def builtin_bswap16 (u : Nat) : Nat :=
  ((u % 2 ^ 8) * 2 ^ 8 + (u / 2 ^ 8) % 2 ^ 8) % 2 ^ 16

/-- The object representation of an `int16_t` on the little-endian target:
what `(uint8_t*)&x` points at, low byte first. -/
def int16_object_bytes (x : Int) : List Nat :=
  [to_uint16 x % 2 ^ 8, (to_uint16 x / 2 ^ 8) % 2 ^ 8]

/-! ## Types of the file system interface -/

/-- Modelled from the spec: the `FileProperties` of a file header (`fs.h` is
not part of the sources).  A member left out of a C initializer is zero. -/
structure fs_file_properties_t where
  action_protocol_enabled : Bool := false
  action_condition : Nat := 0
  storage_class : Nat := 0
  deriving DecidableEq, Repr

/-- Modelled from the spec: the `FileHeader` (`fs.h` is not part of the
sources).  A member left out of a C initializer is zero. -/
structure fs_file_header_t where
  file_properties : fs_file_properties_t := {}
  file_permissions : Nat := 0
  length : Nat := 0
  allocated_length : Nat := 0
  alp_cmd_file_id : Nat := 0
  interface_file_id : Nat := 0
  deriving DecidableEq, Repr

/-- Modelled from the spec: the quality-of-service flags of an
`InterfaceConfig` (`d7asp.h` is not part of the sources). -/
structure session_qos_t where
  qos_resp_mode : Nat := 0
  qos_retry_mode : Nat := 0
  qos_stop_on_error : Bool := false
  qos_record : Bool := false
  deriving DecidableEq, Repr

/-- Modelled from the spec: the control part of an addressee descriptor
(security method and identifier type). -/
structure d7atp_addressee_ctrl_t where
  nls_method : Nat := 0
  id_type : Nat := 0
  deriving DecidableEq, Repr

/-- Modelled from the spec: the addressee descriptor of an `InterfaceConfig`. -/
structure d7atp_addressee_t where
  ctrl : d7atp_addressee_ctrl_t := {}
  access_class : Nat := 0
  id : Nat := 0
  deriving DecidableEq, Repr

/-- Modelled from the spec: the wireless session configuration, the one
concrete `InterfaceConfig` variant. -/
structure d7asp_master_session_config_t where
  qos : session_qos_t := {}
  dormant_timeout : Nat := 0
  addressee : d7atp_addressee_t := {}
  deriving DecidableEq, Repr

/-- The members of `fs_init_args_t` that `bootstrap` sets and that matter here. -/
structure fs_init_args_t where
  access_profiles_count : Nat := 0
  access_class : Nat := 0
  deriving DecidableEq, Repr

/-! ## `execute_sensor_measurement` -/

/-- The arguments of one `fs_write_file(file_id, offset, buffer, length)` call;
`buffer` holds the `length` bytes the pointer argument designates. -/
structure fs_write_call where
  file_id : Nat
  offset : Nat
  buffer : List Nat
  length : Nat
  deriving DecidableEq, Repr

/-- A call `timer_post_task_delay(&execute_sensor_measurement, delay)`. -/
structure timer_post where
  delay : Nat
  deriving DecidableEq, Repr

/-- What one run of `execute_sensor_measurement` does, in program order. -/
structure measurement_effects where
  write : fs_write_call
  logged : Int
  posted : timer_post
  deriving DecidableEq, Repr

/-- The value of `temperature` after the optional sensor read: with
`USE_HTS221` the driver stores its reading, otherwise the initial 0 stays. -/
def measured_temperature (USE_HTS221 : Bool) (reading : Int) : Int :=
  if USE_HTS221 then reading else 0

/-- `execute_sensor_measurement`: `temperature` is replaced by its byte swap,
its two bytes in memory are written to the sensor file, the (now swapped)
variable is logged and the task posts itself again. -/
def execute_sensor_measurement (k : StackConsts) (USE_HTS221 : Bool) (reading : Int) :
    measurement_effects :=
  let temperature : Int := measured_temperature USE_HTS221 reading
  let temperature : Int := to_int16 (builtin_bswap16 (to_uint16 temperature))
  { write :=
      { file_id := SENSOR_FILE_ID
        offset := 0
        buffer := (int16_object_bytes temperature).take SENSOR_FILE_SIZE
        length := SENSOR_FILE_SIZE }
    logged := temperature
    posted := { delay := SENSOR_INTERVAL_SEC k } }

/-! ## `init_user_files` -/

/-- `uint8_t alp_command[4]`: the ALP control byte followed by the file data
request operand. -/
def alp_command (k : StackConsts) : List Nat :=
  [to_uint8 k.ALP_OP_READ_FILE_DATA, to_uint8 SENSOR_FILE_ID, to_uint8 0, to_uint8 SENSOR_FILE_SIZE]

/-- `sizeof(alp_command)`: four `uint8_t` elements. -/
def sizeof_alp_command : Nat := 4

/-- `action_file_header` of `init_user_files`. -/
def action_file_header (k : StackConsts) : fs_file_header_t :=
  { file_properties :=
      { action_protocol_enabled := false
        storage_class := k.FS_STORAGE_PERMANENT }
    file_permissions := 0
    length := sizeof_alp_command
    allocated_length := sizeof_alp_command }

/-- `session_config` of `init_user_files`. -/
def session_config (k : StackConsts) : d7asp_master_session_config_t :=
  { qos :=
      { qos_resp_mode := k.SESSION_RESP_MODE_NO
        qos_retry_mode := k.SESSION_RETRY_MODE_NO
        qos_stop_on_error := false
        qos_record := false }
    dormant_timeout := 0
    addressee :=
      { ctrl := { nls_method := k.AES_NONE, id_type := k.ID_TYPE_NOID }
        access_class := 0x01
        id := 0 } }

/-- `file_header` of `init_user_files`, the header of the sensor file. -/
def file_header (k : StackConsts) : fs_file_header_t :=
  { file_properties :=
      { action_protocol_enabled := true
        action_condition := k.ALP_ACT_COND_WRITE
        storage_class := k.FS_STORAGE_VOLATILE }
    file_permissions := 0
    alp_cmd_file_id := ACTION_FILE_ID
    interface_file_id := INTERFACE_FILE_ID
    length := SENSOR_FILE_SIZE }

/-- A registration call made by `init_user_files`. -/
inductive fs_init_call where
  | fs_init_file (file_id : Nat) (file_header : fs_file_header_t)
      (initial_data : Option (List Nat))
  | fs_init_file_with_d7asp_interface_config (file_id : Nat)
      (cfg : d7asp_master_session_config_t)
  deriving DecidableEq, Repr

/-- The file identifier a registration call registers. -/
def fs_init_call.file_id : fs_init_call → Nat
  | .fs_init_file file_id _ _ => file_id
  | .fs_init_file_with_d7asp_interface_config file_id _ => file_id

/-- `init_user_files`: the three registrations, in program order. -/
def init_user_files (k : StackConsts) : List fs_init_call :=
  [ .fs_init_file ACTION_FILE_ID (action_file_header k) (some (alp_command k)),
    .fs_init_file_with_d7asp_interface_config INTERFACE_FILE_ID (session_config k),
    .fs_init_file SENSOR_FILE_ID (file_header k) none ]

/-- The headers `init_user_files` builds and passes to `fs_init_file`, each
with the identifier it is registered under. -/
def fs_init_file_headers (k : StackConsts) : List (Nat × fs_file_header_t) :=
  (init_user_files k).filterMap fun c =>
    match c with
    | .fs_init_file file_id hdr _ => some (file_id, hdr)
    | .fs_init_file_with_d7asp_interface_config _ _ => none

/-! ## `bootstrap` -/

/-- `fs_init_args` of `bootstrap`. -/
def fs_init_args : fs_init_args_t :=
  { access_profiles_count := 1
    access_class := 0x01 }

/-! ## The file store (design specification, section 4.1) -/

/-- Modelled from the spec: the error taxonomy `FsError` of the file store
(`fs.c` is not part of the sources). -/
inductive FsError where
  | UnknownFile
  | OutOfBounds
  | PermissionDenied
  | DuplicateId
  | CapacityExceeded
  | StorageFailure
  deriving DecidableEq, Repr

/-- Modelled from the spec: how the opaque permission bitmask of a header is
enforced.  The spec leaves the bitmask opaque, so enforcement is a parameter. -/
structure fs_policy where
  may_read : Nat → Bool
  may_write : Nat → Bool

/-- Modelled from the spec: one registered file, its header and the bytes of
its preallocated slot. -/
structure fs_file where
  file_id : Nat
  header : fs_file_header_t
  data : List Nat
  deriving DecidableEq, Repr

/-- Modelled from the spec: the file descriptor table, an explicitly owned
registry of the registered files. -/
abbrev fs_table := List fs_file

/-- Modelled from the spec: the entry registered under `file_id`, if any. -/
def fs_lookup (fs : fs_table) (file_id : Nat) : Option fs_file :=
  fs.find? fun f => f.file_id == file_id

/-- Modelled from the spec: `header_of(id)`, failing with `UnknownFile`. -/
def header_of (fs : fs_table) (file_id : Nat) : Except FsError fs_file_header_t :=
  match fs_lookup fs file_id with
  | none => .error .UnknownFile
  | some f => .ok f.header

/-- Modelled from the spec: `init_file(id, header, initial_data)` (`fs_init_file`
of `fs.c`, which is not part of the sources).  Fails with `DuplicateId` when
the identifier is registered already and with `CapacityExceeded` when the
initial data is longer than `allocated_length`; otherwise the file is
registered with the header as given, its slot holding the initial data
followed by zeros.  A null `initial_data` is no initial data. -/
def fs_init_file (fs : fs_table) (file_id : Nat) (hdr : fs_file_header_t)
    (initial_data : Option (List Nat)) : Except FsError fs_table :=
  let initial := initial_data.getD []
  match fs_lookup fs file_id with
  | some _ => .error .DuplicateId
  | none =>
    if initial.length > hdr.allocated_length then .error .CapacityExceeded
    else
      .ok (fs ++ [{ file_id := file_id
                    header := hdr
                    data := initial ++ List.replicate (hdr.allocated_length - initial.length) 0 }])

/-- Modelled from the spec: the header after a successful write; `length` is
updated if the write extends it. -/
def header_after_write (hdr : fs_file_header_t) (offset len : Nat) : fs_file_header_t :=
  { hdr with length := max hdr.length (offset + len) }

/-- Modelled from the spec: the slot bytes after writing `buffer` at `offset`. -/
def data_after_write (data : List Nat) (offset : Nat) (buffer : List Nat) : List Nat :=
  data.take offset ++ buffer ++ data.drop (offset + buffer.length)

/-- Modelled from the spec: the bounds condition of `write_file`,
`offset + len <= allocated_length`. -/
def write_in_bounds (hdr : fs_file_header_t) (offset len : Nat) : Bool :=
  decide (offset + len ≤ hdr.allocated_length)

/-- Modelled from the spec: `write_file(id, offset, data)` (`fs_write_file` of
`fs.c`, which is not part of the sources).  Fails with `UnknownFile`, with
`OutOfBounds` when `offset + len > allocated_length`, with `PermissionDenied`;
on success the bytes are stored and `length` grows if the write extends it. -/
def fs_write_file (p : fs_policy) (fs : fs_table) (file_id offset : Nat)
    (buffer : List Nat) : Except FsError fs_table :=
  match fs_lookup fs file_id with
  | none => .error .UnknownFile
  | some f =>
    if !write_in_bounds f.header offset buffer.length then .error .OutOfBounds
    else if !p.may_write f.header.file_permissions then .error .PermissionDenied
    else
      .ok (fs.map fun g =>
        if g.file_id == file_id then
          { g with header := header_after_write g.header offset buffer.length
                   data := data_after_write g.data offset buffer }
        else g)

/-- Modelled from the spec: `read_file(id, offset, length)`.  Fails with
`UnknownFile`, `OutOfBounds`, `PermissionDenied`; the bound is the one the spec
gives for `write_file`. -/
def fs_read_file (p : fs_policy) (fs : fs_table) (file_id offset length : Nat) :
    Except FsError (List Nat) :=
  match fs_lookup fs file_id with
  | none => .error .UnknownFile
  | some f =>
    if offset + length > f.header.allocated_length then .error .OutOfBounds
    else if !p.may_read f.header.file_permissions then .error .PermissionDenied
    else .ok ((f.data.drop offset).take length)

/-- Modelled from the spec: the trigger condition of the action trigger engine
(section 4.3): a mutation event fires when the file is action-enabled and the
event type equals the file's `action_condition`. -/
def trigger_fires (hdr : fs_file_header_t) (event : Nat) : Bool :=
  hdr.file_properties.action_protocol_enabled && (event == hdr.file_properties.action_condition)

/-! ## The command encoding (design specification, section 4.4) -/

/-- Modelled from the spec: the error taxonomy `CodecError`. -/
inductive CodecError where
  | TruncatedCommand
  | InvalidInterfaceConfig
  deriving DecidableEq, Repr

/-- Modelled from the spec: an `ActionCommand` (the ALP codec of the stack is
not part of the sources): a byte sequence with a first-byte opcode and the
recognised sub-format {opcode, target file id, offset, requested length} of a
"read file data" operation; a command with another opcode keeps its bytes
unmodified. -/
inductive ActionCommand where
  | read_file_data (target_file_id offset requested_length : Nat)
  | other_op (opcode : Nat) (operands : List Nat)
  deriving DecidableEq, Repr

/-- Modelled from the spec: a representable `ActionCommand`: every field is a
byte, and a command of unrecognised format does not carry the "read file data"
opcode. -/
def ActionCommand.representable (k : StackConsts) : ActionCommand → Prop
  | .read_file_data target_file_id offset requested_length =>
    target_file_id < 2 ^ 8 ∧ offset < 2 ^ 8 ∧ requested_length < 2 ^ 8
  | .other_op opcode operands =>
    opcode < 2 ^ 8 ∧ opcode ≠ to_uint8 k.ALP_OP_READ_FILE_DATA ∧ ∀ b ∈ operands, b < 2 ^ 8

/-- Modelled from the spec: `encode`, the inverse of `decode`: the opcode byte
followed by the operand bytes. -/
def encode (k : StackConsts) : ActionCommand → List Nat
  | .read_file_data target_file_id offset requested_length =>
    [to_uint8 k.ALP_OP_READ_FILE_DATA, to_uint8 target_file_id, to_uint8 offset,
     to_uint8 requested_length]
  | .other_op opcode operands => to_uint8 opcode :: operands.map to_uint8

/-- Modelled from the spec: `decode(bytes)`.  The first byte is the opcode; the
"read file data" opcode requires exactly 3 following bytes (target file id,
offset, length) and fails with `TruncatedCommand` otherwise (the spec names
this error for fewer bytes and none for surplus ones). -/
def decode (k : StackConsts) : List Nat → Except CodecError ActionCommand
  | [] => .error .TruncatedCommand
  | opcode :: operands =>
    if opcode = to_uint8 k.ALP_OP_READ_FILE_DATA then
      match operands with
      | [target_file_id, offset, requested_length] =>
        .ok (.read_file_data target_file_id offset requested_length)
      | _ => .error .TruncatedCommand
    else .ok (.other_op opcode operands)

/-! ## Calls in program order, and the pending tasks -/

/-- The tasks the application registers with the scheduler. -/
inductive task_t where
  | execute_sensor_measurement
  deriving DecidableEq, Repr

/-- Calls into the I2C bus and the HTS221 driver, made only with `USE_HTS221`. -/
inductive hts221_call where
  | i2c_init
  | HTS221_DeActivate
  | HTS221_Set_BduMode
  | HTS221_Set_Odr
  | HTS221_Activate
  | HTS221_Get_Temperature
  deriving DecidableEq, Repr

/-- A call the application makes.  `log_print_string` carries the arguments
that follow the format string. -/
inductive app_call where
  | log_print_string (args : List Int)
  | d7ap_stack_init (fs_init_args : fs_init_args_t)
  | hts221 (c : hts221_call)
  | fs_write_file (c : fs_write_call)
  | sched_register_task (task : task_t)
  | timer_post_task_delay (task : task_t) (delay : Nat)
  deriving DecidableEq, Repr

/-- The calls of one run of `execute_sensor_measurement`, in program order:
the sensor read (with `USE_HTS221`), the write, the log message, the post. -/
def execute_sensor_measurement_calls (k : StackConsts) (USE_HTS221 : Bool) (reading : Int) :
    List app_call :=
  (if USE_HTS221 then [.hts221 .HTS221_Get_Temperature] else []) ++
  [ .fs_write_file (execute_sensor_measurement k USE_HTS221 reading).write,
    .log_print_string [(execute_sensor_measurement k USE_HTS221 reading).logged],
    .timer_post_task_delay .execute_sensor_measurement
      (execute_sensor_measurement k USE_HTS221 reading).posted.delay ]

/-- The calls of `bootstrap`, in program order. -/
def bootstrap (k : StackConsts) (USE_HTS221 : Bool) : List app_call :=
  [ .log_print_string [],
    .d7ap_stack_init fs_init_args ] ++
  (if USE_HTS221 then
    [ .hts221 .i2c_init, .hts221 .HTS221_DeActivate, .hts221 .HTS221_Set_BduMode,
      .hts221 .HTS221_Set_Odr, .hts221 .HTS221_Activate ]
   else []) ++
  [ .sched_register_task .execute_sensor_measurement,
    .timer_post_task_delay .execute_sensor_measurement (SENSOR_INTERVAL_SEC k) ]

/-- The `fs_write_file` calls among a sequence of calls. -/
def writes_of (calls : List app_call) : List fs_write_call :=
  calls.filterMap fun c =>
    match c with
    | .fs_write_file w => some w
    | _ => none

/-- The `timer_post_task_delay` calls among a sequence of calls. -/
def posts_of (calls : List app_call) : List (task_t × Nat) :=
  calls.filterMap fun c =>
    match c with
    | .timer_post_task_delay task delay => some (task, delay)
    | _ => none

/-- Whether a call is a file write or a timer post. -/
def is_write_or_post : app_call → Bool
  | .fs_write_file _ => true
  | .timer_post_task_delay _ _ => true
  | _ => false

/-- Modelled from the spec: a pending delayed invocation, the result of
`schedule_after(task, delay_ticks)` (the timer and the scheduler are not part
of the sources): the task runs once, `delay` ticks after it was posted. -/
structure pending_task where
  task : task_t
  due : Nat
  deriving DecidableEq, Repr

/-- Modelled from the spec: the pending tasks, the current tick and the calls
made so far. -/
structure sched_state where
  now : Nat
  pending : List pending_task
  trace : List app_call
  deriving DecidableEq, Repr

/-- Modelled from the spec: the invocations a sequence of calls posts at tick `now`. -/
def pending_of (now : Nat) (calls : List app_call) : List pending_task :=
  (posts_of calls).map fun p => { task := p.1, due := now + p.2 }

/-- Modelled from the spec: the pending invocation that is due first. -/
def earliest : List pending_task → Option pending_task
  | [] => none
  | p :: rest =>
    match earliest rest with
    | none => some p
    | some q => if p.due ≤ q.due then some p else some q

/-- The calls a task makes when it runs. -/
def run_task (k : StackConsts) (USE_HTS221 : Bool) (reading : Int) : task_t → List app_call
  | .execute_sensor_measurement => execute_sensor_measurement_calls k USE_HTS221 reading

/-- Modelled from the spec: the state after `bootstrap`. -/
def sched_boot (k : StackConsts) (USE_HTS221 : Bool) : sched_state :=
  { now := 0
    pending := pending_of 0 (bootstrap k USE_HTS221)
    trace := bootstrap k USE_HTS221 }

/-- Modelled from the spec: one step of the scheduler.  The pending invocation
due first is removed and run at its due tick (`reading` is what the sensor
delivers then); what it posts becomes pending.  With nothing pending the state
stays. -/
def sched_step (k : StackConsts) (USE_HTS221 : Bool) (s : sched_state) (reading : Int) :
    sched_state :=
  match earliest s.pending with
  | none => s
  | some p =>
    { now := max s.now p.due
      pending := s.pending.erase p ++
        pending_of (max s.now p.due) (run_task k USE_HTS221 reading p.task)
      trace := s.trace ++ run_task k USE_HTS221 reading p.task }

/-- Modelled from the spec: `bootstrap` followed by one step per sensor reading. -/
def sched_run (k : StackConsts) (USE_HTS221 : Bool) (readings : List Int) : sched_state :=
  readings.foldl (sched_step k USE_HTS221) (sched_boot k USE_HTS221)

/-- The header `init_user_files` passes to `fs_init_file` for `file_id`, if any. -/
def registered_header (k : StackConsts) (file_id : Nat) : Option fs_file_header_t :=
  ((fs_init_file_headers k).find? fun h => h.1 == file_id).map fun h => h.2

/-- Modelled from the spec: a qualifying write, a write to a file whose
registered header is action-enabled with the write condition (section 8). -/
def qualifying_write (k : StackConsts) (w : fs_write_call) : Bool :=
  match registered_header k w.file_id with
  | some hdr => trigger_fires hdr k.ALP_ACT_COND_WRITE
  | none => false

/-- A policy that grants every access. -/
def fs_policy_open : fs_policy :=
  { may_read := fun _ => true, may_write := fun _ => true }

/-- Values of the header constants used where a concrete instance is needed. -/
def sample_consts : StackConsts :=
  { ALP_OP_READ_FILE_DATA := 1
    ALP_ACT_COND_WRITE := 2
    FS_STORAGE_VOLATILE := 1
    FS_STORAGE_PERMANENT := 3
    SESSION_RESP_MODE_NO := 0
    SESSION_RETRY_MODE_NO := 0
    AES_NONE := 0
    ID_TYPE_NOID := 1
    TIMER_TICKS_PER_SEC := 1024 }

end SensorAction

namespace CC430

/-! ## Radio core interrupt flags (`d7aoss/ral/cc430/cc430_registers.h`) -/

/-- The cast `(u16)`: reduction to 16 bits. -/
def u16 (x : Nat) : Nat := x % 2 ^ 16

/-- The cast `(u8)`: reduction to 8 bits. -/
def u8 (x : Nat) : Nat := x % 2 ^ 8

/-- The cast `(u32)`: reduction to 32 bits. -/
def u32 (x : Nat) : Nat := x % 2 ^ 32

/-- Bitwise complement of a 16-bit value. -/
def u16_not (x : Nat) : Nat := 2 ^ 16 - 1 - x % 2 ^ 16

/-- Macro `RFIFG_FLAG_IOCFG0`, `(u16)0x0001`, documented as "RFIFG0". -/
def RFIFG_FLAG_IOCFG0 : Nat := u16 0x0001

/-- Macro `RFIFG_FLANK_IOCFG0`, `(u16)0x0000`. -/
def RFIFG_FLANK_IOCFG0 : Nat := u16 0x0000

/-- Macro `RFIFG_FLAG_IOCFG1`, `(u16)0x0002`, documented as "RFIFG1". -/
def RFIFG_FLAG_IOCFG1 : Nat := u16 0x0002

/-- Macro `RFIFG_FLANK_IOCFG1`, `(u16)0x0000`. -/
def RFIFG_FLANK_IOCFG1 : Nat := u16 0x0000

/-- Macro `RFIFG_FLAG_IOCFG2`, `(u16)0x0004`, documented as "RFIFG2". -/
def RFIFG_FLAG_IOCFG2 : Nat := u16 0x0004

/-- Macro `RFIFG_FLANK_IOCFG2`, `(u16)0x0000`. -/
def RFIFG_FLANK_IOCFG2 : Nat := u16 0x0000

/-- Macro `RFIFG_FLAG_RXFilled`, `(u16)0x0008`, documented as "RFIFG3 Positive Edge". -/
def RFIFG_FLAG_RXFilled : Nat := u16 0x0008

/-- Macro `RFIFG_FLANK_RXFilled`, `(u16)0x0000`. -/
def RFIFG_FLANK_RXFilled : Nat := u16 0x0000

/-- Macro `RFIFG_FLAG_RXDrained`, `(u16)0x0008`, documented as "RFIFG3 Negative Edge". -/
def RFIFG_FLAG_RXDrained : Nat := u16 0x0008

/-- Macro `RFIFG_FLANK_RXDrained`, `(u16)0x0008`. -/
def RFIFG_FLANK_RXDrained : Nat := u16 0x0008

/-- Macro `RFIFG_FLAG_RXFilledOrEOP`, `(u16)0x0010`, documented as "RFIFG4 Positive Edge". -/
def RFIFG_FLAG_RXFilledOrEOP : Nat := u16 0x0010

/-- Macro `RFIFG_FLANK_RXFilledOrEOP`, `(u16)0x0000`. -/
def RFIFG_FLANK_RXFilledOrEOP : Nat := u16 0x0000

/-- Macro `RFIFG_FLAG_RXEmpty`, `(u16)0x0010`, documented as "RFIFG4 Negative Edge". -/
def RFIFG_FLAG_RXEmpty : Nat := u16 0x0010

/-- Macro `RFIFG_FLANK_RXEmpty`, `(u16)0x0010`. -/
def RFIFG_FLANK_RXEmpty : Nat := u16 0x0010

/-- Macro `RFIFG_FLAG_TXFilled`, `(u16)0x0020`, documented as "RFIFG5 Positive Edge". -/
def RFIFG_FLAG_TXFilled : Nat := u16 0x0020

/-- Macro `RFIFG_FLANK_TXFilled`, `(u16)0x0000`. -/
def RFIFG_FLANK_TXFilled : Nat := u16 0x0000

/-- Macro `RFIFG_FLAG_TXBelowThresh`, `(u16)0x0020`, documented as "RFIFG5 Negative Edge". -/
def RFIFG_FLAG_TXBelowThresh : Nat := u16 0x0020

/-- Macro `RFIFG_FLANK_TXBelowThresh`, `(u16)0x0020`. -/
def RFIFG_FLANK_TXBelowThresh : Nat := u16 0x0020

/-- Macro `RFIFG_FLAG_TXFull`, `(u16)0x0040`, documented as "RFIFG6 Positive Edge". -/
def RFIFG_FLAG_TXFull : Nat := u16 0x0040

/-- Macro `RFIFG_FLANK_TXFull`, `(u16)0x0000`. -/
def RFIFG_FLANK_TXFull : Nat := u16 0x0000

/-- Macro `RFIFG_FLAG_TXDrained`, `(u16)0x0040`, documented as "RFIFG6 Negative Edge". -/
def RFIFG_FLAG_TXDrained : Nat := u16 0x0040

/-- Macro `RFIFG_FLANK_TXDrained`, `(u16)0x0040`. -/
def RFIFG_FLANK_TXDrained : Nat := u16 0x0040

/-- Macro `RFIFG_FLAG_RXOverflow`, `(u16)0x0080`, documented as "RFIFG7 Positive Edge". -/
def RFIFG_FLAG_RXOverflow : Nat := u16 0x0080

/-- Macro `RFIFG_FLANK_RXOverflow`, `(u16)0x0000`. -/
def RFIFG_FLANK_RXOverflow : Nat := u16 0x0000

/-- Macro `RFIFG_FLAG_RXFlushed`, `(u16)0x0080`, documented as "RFIFG7 Negative Edge". -/
def RFIFG_FLAG_RXFlushed : Nat := u16 0x0080

/-- Macro `RFIFG_FLANK_RXFlushed`, `(u16)0x0080`. -/
def RFIFG_FLANK_RXFlushed : Nat := u16 0x0080

/-- Macro `RFIFG_FLAG_TXUndererflow`, `(u16)0x0100`, documented as "RFIFG8 Positive Edge". -/
def RFIFG_FLAG_TXUndererflow : Nat := u16 0x0100

/-- Macro `RFIFG_FLANK_TXUndererflow`, `(u16)0x0000`. -/
def RFIFG_FLANK_TXUndererflow : Nat := u16 0x0000

/-- Macro `RFIFG_FLAG_TXFlushed`, `(u16)0x0100`, documented as "RFIFG8 Negative Edge". -/
def RFIFG_FLAG_TXFlushed : Nat := u16 0x0100

/-- Macro `RFIFG_FLANK_TXFlushed`, `(u16)0x0100`. -/
def RFIFG_FLANK_TXFlushed : Nat := u16 0x0100

/-- Macro `RFIFG_FLAG_SyncWord`, `(u16)0x0200`, documented as "RFIFG9 Positive Edge". -/
def RFIFG_FLAG_SyncWord : Nat := u16 0x0200

/-- Macro `RFIFG_FLANK_SyncWord`, `(u16)0x0000`. -/
def RFIFG_FLANK_SyncWord : Nat := u16 0x0000

/-- Macro `RFIFG_FLAG_EndOfPacket`, `(u16)0x0200`, documented as "RFIFG9 Negative Edge". -/
def RFIFG_FLAG_EndOfPacket : Nat := u16 0x0200

/-- Macro `RFIFG_FLANK_EndOfPacket`, `(u16)0x0200`. -/
def RFIFG_FLANK_EndOfPacket : Nat := u16 0x0200

/-- Macro `RFIFG_FLAG_CRCOK`, `(u16)0x0400`, documented as "RFIFG10 Positive Edge". -/
def RFIFG_FLAG_CRCOK : Nat := u16 0x0400

/-- Macro `RFIFG_FLANK_CRCOK`, `(u16)0x0000`. -/
def RFIFG_FLANK_CRCOK : Nat := u16 0x0000

/-- Macro `RFIFG_FLAG_RXFirstByte`, `(u16)0x0400`, documented as "RFIFG10 Negative Edge". -/
def RFIFG_FLAG_RXFirstByte : Nat := u16 0x0400

/-- Macro `RFIFG_FLANK_RXFirstByte`, `(u16)0x0400`. -/
def RFIFG_FLANK_RXFirstByte : Nat := u16 0x0400

/-- Macro `RFIFG_FLAG_PQTReached`, `(u16)0x0800`, documented as "RFIFG11 Positive Edge". -/
def RFIFG_FLAG_PQTReached : Nat := u16 0x0800

/-- Macro `RFIFG_FLANK_PQTReached`, `(u16)0x0000`. -/
def RFIFG_FLANK_PQTReached : Nat := u16 0x0000

/-- Macro `RFIFG_FLAG_LPW`, `(u16)0x0800`, documented as "RFIFG11 Negative Edge". -/
def RFIFG_FLAG_LPW : Nat := u16 0x0800

/-- Macro `RFIFG_FLANK_LPW`, `(u16)0x0800`. -/
def RFIFG_FLANK_LPW : Nat := u16 0x0800

/-- Macro `RFIFG_FLAG_ClearChannel`, `(u16)0x1000`, documented as "RFIFG12 Positive Edge". -/
def RFIFG_FLAG_ClearChannel : Nat := u16 0x1000

/-- Macro `RFIFG_FLANK_ClearChannel`, `(u16)0x0000`. -/
def RFIFG_FLANK_ClearChannel : Nat := u16 0x0000

/-- Macro `RFIFG_FLAG_RSSIAboveThr`, `(u16)0x1000`, documented as "RFIFG12 Negative Edge". -/
def RFIFG_FLAG_RSSIAboveThr : Nat := u16 0x1000

/-- Macro `RFIFG_FLANK_RSSIAboveThr`, `(u16)0x1000`. -/
def RFIFG_FLANK_RSSIAboveThr : Nat := u16 0x1000

/-- Macro `RFIFG_FLAG_CarrierSense`, `(u16)0x2000`, documented as "RFIFG13 Positive Edge". -/
def RFIFG_FLAG_CarrierSense : Nat := u16 0x2000

/-- Macro `RFIFG_FLANK_CarrierSense`, `(u16)0x0000`. -/
def RFIFG_FLANK_CarrierSense : Nat := u16 0x0000

/-- Macro `RFIFG_FLAG_CSRSSIAboveThr`, `(u16)0x2000`, documented as "RFIFG13 Negative Edge". -/
def RFIFG_FLAG_CSRSSIAboveThr : Nat := u16 0x2000

/-- Macro `RFIFG_FLANK_CSRSSIAboveThr`, `(u16)0x2000`. -/
def RFIFG_FLANK_CSRSSIAboveThr : Nat := u16 0x2000

/-- Macro `RFIFG_FLAG_WOREvent0`, `(u16)0x4000`, documented as "RFIFG14 Positive Edge". -/
def RFIFG_FLAG_WOREvent0 : Nat := u16 0x4000

/-- Macro `RFIFG_FLANK_WOREvent0`, `(u16)0x0000`. -/
def RFIFG_FLANK_WOREvent0 : Nat := u16 0x0000

/-- Macro `RFIFG_FLAG_WOREvent0ACLK`, `(u16)0x4000`, documented as "RFIFG14 Negative Edge". -/
def RFIFG_FLAG_WOREvent0ACLK : Nat := u16 0x4000

/-- Macro `RFIFG_FLANK_WOREvent0ACLK`, `(u16)0x4000`. -/
def RFIFG_FLANK_WOREvent0ACLK : Nat := u16 0x4000

/-- Macro `RFIFG_FLAG_WORevent1`, `(u16)0x8000`, documented as "RFIFG15 Positive Edge". -/
def RFIFG_FLAG_WORevent1 : Nat := u16 0x8000

/-- Macro `RFIFG_FLANK_WORevent1`, `(u16)0x0000`. -/
def RFIFG_FLANK_WORevent1 : Nat := u16 0x0000

/-- Macro `RFIFG_FLAG_OscStable`, `(u16)0x8000`, documented as "RFIFG15 Negative Edge". -/
def RFIFG_FLAG_OscStable : Nat := u16 0x8000

/-- Macro `RFIFG_FLANK_OscStable`, `(u16)0x8000`. -/
def RFIFG_FLANK_OscStable : Nat := u16 0x8000

/-- Macro `RFIFG_FLAG_AllPositiveEdge`, `(u16)0xFFFF`. -/
def RFIFG_FLAG_AllPositiveEdge : Nat := u16 0xFFFF

/-- Macro `RFIFG_FLANK_AllPositiveEdge`, `(u16)0x0000`. -/
def RFIFG_FLANK_AllPositiveEdge : Nat := u16 0x0000

/-- Macro `RFIFG_FLAG_AllNegativeEdge`, `(u16)0xFFFF`. -/
def RFIFG_FLAG_AllNegativeEdge : Nat := u16 0xFFFF

/-- Macro `RFIFG_FLANK_AllNegativeEdge`, `(u16)0xFFFF`. -/
def RFIFG_FLANK_AllNegativeEdge : Nat := u16 0xFFFF

/-- The edge the comment of an interrupt flag documents. -/
inductive rfifg_edge where
  | undocumented
  | positive
  | negative
  deriving DecidableEq, Repr

/-- One single-event row of the table: the flag, its flank, and what the
comment documents (the interrupt flag number `RFIFGn` and the edge). -/
structure rfifg_entry where
  flag : Nat
  flank : Nat
  rfifg : Nat
  edge : rfifg_edge
  deriving DecidableEq, Repr

/-- The single-event rows of the table, in source order. -/
def rfifg_table : List rfifg_entry :=
  [
    { flag := RFIFG_FLAG_IOCFG0, flank := RFIFG_FLANK_IOCFG0, rfifg := 0, edge := .undocumented },
    { flag := RFIFG_FLAG_IOCFG1, flank := RFIFG_FLANK_IOCFG1, rfifg := 1, edge := .undocumented },
    { flag := RFIFG_FLAG_IOCFG2, flank := RFIFG_FLANK_IOCFG2, rfifg := 2, edge := .undocumented },
    { flag := RFIFG_FLAG_RXFilled, flank := RFIFG_FLANK_RXFilled, rfifg := 3, edge := .positive },
    { flag := RFIFG_FLAG_RXDrained, flank := RFIFG_FLANK_RXDrained, rfifg := 3, edge := .negative },
    { flag := RFIFG_FLAG_RXFilledOrEOP, flank := RFIFG_FLANK_RXFilledOrEOP, rfifg := 4, edge := .positive },
    { flag := RFIFG_FLAG_RXEmpty, flank := RFIFG_FLANK_RXEmpty, rfifg := 4, edge := .negative },
    { flag := RFIFG_FLAG_TXFilled, flank := RFIFG_FLANK_TXFilled, rfifg := 5, edge := .positive },
    { flag := RFIFG_FLAG_TXBelowThresh, flank := RFIFG_FLANK_TXBelowThresh, rfifg := 5, edge := .negative },
    { flag := RFIFG_FLAG_TXFull, flank := RFIFG_FLANK_TXFull, rfifg := 6, edge := .positive },
    { flag := RFIFG_FLAG_TXDrained, flank := RFIFG_FLANK_TXDrained, rfifg := 6, edge := .negative },
    { flag := RFIFG_FLAG_RXOverflow, flank := RFIFG_FLANK_RXOverflow, rfifg := 7, edge := .positive },
    { flag := RFIFG_FLAG_RXFlushed, flank := RFIFG_FLANK_RXFlushed, rfifg := 7, edge := .negative },
    { flag := RFIFG_FLAG_TXUndererflow, flank := RFIFG_FLANK_TXUndererflow, rfifg := 8, edge := .positive },
    { flag := RFIFG_FLAG_TXFlushed, flank := RFIFG_FLANK_TXFlushed, rfifg := 8, edge := .negative },
    { flag := RFIFG_FLAG_SyncWord, flank := RFIFG_FLANK_SyncWord, rfifg := 9, edge := .positive },
    { flag := RFIFG_FLAG_EndOfPacket, flank := RFIFG_FLANK_EndOfPacket, rfifg := 9, edge := .negative },
    { flag := RFIFG_FLAG_CRCOK, flank := RFIFG_FLANK_CRCOK, rfifg := 10, edge := .positive },
    { flag := RFIFG_FLAG_RXFirstByte, flank := RFIFG_FLANK_RXFirstByte, rfifg := 10, edge := .negative },
    { flag := RFIFG_FLAG_PQTReached, flank := RFIFG_FLANK_PQTReached, rfifg := 11, edge := .positive },
    { flag := RFIFG_FLAG_LPW, flank := RFIFG_FLANK_LPW, rfifg := 11, edge := .negative },
    { flag := RFIFG_FLAG_ClearChannel, flank := RFIFG_FLANK_ClearChannel, rfifg := 12, edge := .positive },
    { flag := RFIFG_FLAG_RSSIAboveThr, flank := RFIFG_FLANK_RSSIAboveThr, rfifg := 12, edge := .negative },
    { flag := RFIFG_FLAG_CarrierSense, flank := RFIFG_FLANK_CarrierSense, rfifg := 13, edge := .positive },
    { flag := RFIFG_FLAG_CSRSSIAboveThr, flank := RFIFG_FLANK_CSRSSIAboveThr, rfifg := 13, edge := .negative },
    { flag := RFIFG_FLAG_WOREvent0, flank := RFIFG_FLANK_WOREvent0, rfifg := 14, edge := .positive },
    { flag := RFIFG_FLAG_WOREvent0ACLK, flank := RFIFG_FLANK_WOREvent0ACLK, rfifg := 14, edge := .negative },
    { flag := RFIFG_FLAG_WORevent1, flank := RFIFG_FLANK_WORevent1, rfifg := 15, edge := .positive },
    { flag := RFIFG_FLAG_OscStable, flank := RFIFG_FLANK_OscStable, rfifg := 15, edge := .negative } ]

/-- The bitwise OR of the flags of a list of rows. -/
def rfifg_flags_or (rows : List rfifg_entry) : Nat :=
  rows.foldl (fun acc e => acc ||| e.flag) 0

/-! ## Radio parameters (`d7aoss/ral/cc430/cc430_registers.h`) -/

/-- Macro `RADIO_FREQ_IF`, `0x06`: FSCTRL1.FREQ_IF, documented as 152.34375 kHz
with fIF = (fRFXT2 / 2^10) x FREQ_IF. -/
def RADIO_FREQ_IF : Nat := 0x06

/-- Macro `RADIO_FREQ_433`, `((u32)0x0010A900)`, documented as
"pchan 1 fc = 433.164062 MHz". -/
def RADIO_FREQ_433 : Nat := u32 0x0010A900

/-- Macro `RADIO_FREQ2`, `(u8)(RADIO_FREQ_433>>16 & 0xFF)`; in C the shift binds
tighter than the mask. -/
def RADIO_FREQ2 : Nat := u8 ((RADIO_FREQ_433 >>> 16) &&& 0xFF)

/-- Macro `RADIO_FREQ1`, `(u8)(RADIO_FREQ_433>>8 & 0xFF)`. -/
def RADIO_FREQ1 : Nat := u8 ((RADIO_FREQ_433 >>> 8) &&& 0xFF)

/-- Macro `RADIO_FREQ0`, `(u8)(RADIO_FREQ_433 & 0xFF)`. -/
def RADIO_FREQ0 : Nat := u8 (RADIO_FREQ_433 &&& 0xFF)

/-- Macro `RADIO_MDMCFG4_CHANBW_E(VAL)`, `((VAL&3)<<6)`. -/
def RADIO_MDMCFG4_CHANBW_E (VAL : Nat) : Nat := (VAL &&& 3) <<< 6

/-- Macro `RADIO_MDMCFG4_CHANBW_M(VAL)`, `((VAL&3)<<4)`. -/
def RADIO_MDMCFG4_CHANBW_M (VAL : Nat) : Nat := (VAL &&& 3) <<< 4

/-- Macro `RADIO_MDMCFG4_DRATE_E(VAL)`, `(VAL&15)`. -/
def RADIO_MDMCFG4_DRATE_E (VAL : Nat) : Nat := VAL &&& 15

/-- Macro `RADIO_MDMCFG3_DRATE_M(VAL)`, `(VAL)`. -/
def RADIO_MDMCFG3_DRATE_M (VAL : Nat) : Nat := VAL

/-- Macro `RADIO_MDMCFG1_CHANSPC_E(VAL)`, `(VAL&3)`. -/
def RADIO_MDMCFG1_CHANSPC_E (VAL : Nat) : Nat := VAL &&& 3

/-- Macro `RADIO_MDMCFG0_CHANSPC_M(VAL)`, `(VAL)`. -/
def RADIO_MDMCFG0_CHANSPC_M (VAL : Nat) : Nat := VAL

/-- Macro `RADIO_DEVIATN_E(VAL)`, `((VAL&7) << 4)`. -/
def RADIO_DEVIATN_E (VAL : Nat) : Nat := (VAL &&& 7) <<< 4

/-- Macro `RADIO_DEVIATN_M(VAL)`, `(VAL&7)`. -/
def RADIO_DEVIATN_M (VAL : Nat) : Nat := VAL &&& 7

/-- The parameter values the comments of the macros give. -/
structure radio_doc_values where
  chanbw_E : Nat
  chanbw_M : Nat
  drate_E : Nat
  drate_M : Nat
  chanspc_E : Nat
  chanspc_M : Nat
  deviatn_E : Nat
  deviatn_M : Nat
  deriving DecidableEq, Repr

/-- The documented values: "2 - 162.5 Khz" (CHANBW_E), "1 - 162.5 Khz"
(CHANBW_M), "11" (DRATE_E), "24 - 55.542 Kbaud" (DRATE_M), "2" (CHANSPC_E),
"16 - 107.910 Khz" (CHANSPC_M), "5" (DEVIATN_E), "0 - 50.78 Khz" (DEVIATN_M). -/
def radio_doc : radio_doc_values :=
  { chanbw_E := 2
    chanbw_M := 1
    drate_E := 11
    drate_M := 24
    chanspc_E := 2
    chanspc_M := 16
    deviatn_E := 5
    deviatn_M := 0 }

/-- The crystal frequency in Hz at which the documentation is evaluated. -/
def fxosc_26MHz : ℚ := 26000000

/-- Comment of `RADIO_FREQ_IF`: fIF = (fRFXT2 / 2^10) x FREQ_IF. -/
def fIF (fxosc : ℚ) (FREQ_IF : Nat) : ℚ := fxosc / 2 ^ 10 * FREQ_IF

/-- Comment of `RADIO_MDMCFG4_CHANBW_E`:
BDW = fxosc / (8 x (4 + chbw_M) x 2^chbw_E). -/
def BDW (fxosc : ℚ) (chbw_M chbw_E : Nat) : ℚ := fxosc / (8 * (4 + chbw_M) * 2 ^ chbw_E)

/-- Comment of `RADIO_MDMCFG3_DRATE_M`:
DRate = ((256+DRATE_M)x2^DRATE_E) * fXosc / 2^28. -/
def DRate (fxosc : ℚ) (DRATE_M DRATE_E : Nat) : ℚ :=
  ((256 + DRATE_M) * 2 ^ DRATE_E) * fxosc / 2 ^ 28

/-- Comment of `RADIO_MDMCFG0_CHANSPC_M`:
chanspc = fosxc/2^18 x (256+chansp_m) x 2 ^chansp_e. -/
def chanspc (fxosc : ℚ) (chansp_m chansp_e : Nat) : ℚ :=
  fxosc / 2 ^ 18 * (256 + chansp_m) * 2 ^ chansp_e

/-- Comment of `RADIO_DEVIATN_M`: dev = fosxc/2^17 x (8+dev_m) x 2 ^dev_e. -/
def dev (fxosc : ℚ) (dev_m dev_e : Nat) : ℚ := fxosc / 2 ^ 17 * (8 + dev_m) * 2 ^ dev_e

/-- The carrier frequency of a 24-bit frequency word, fxosc * FREQ / 2^16.  The
header documents only its value for `RADIO_FREQ_433`. -/
def fc (fxosc : ℚ) (FREQ : Nat) : ℚ := fxosc * FREQ / 2 ^ 16

/-- Rounding to `d` decimals, to nearest (a half rounds up). -/
def round_decimals (x : ℚ) (d : Nat) : ℚ := (⌊x * 10 ^ d + 1 / 2⌋ : ℤ) / 10 ^ d

/-- Cutting off after `d` decimals. -/
def trunc_decimals (x : ℚ) (d : Nat) : ℚ := (⌊x * 10 ^ d⌋ : ℤ) / 10 ^ d

end CC430

namespace SensorAction

/-! ## Basic facts about the embedding -/

theorem execute_sensor_measurement_write_dest (k : StackConsts) (USE_HTS221 : Bool)
    (reading : Int) :
    (execute_sensor_measurement k USE_HTS221 reading).write.file_id = 0x40 ∧
    (execute_sensor_measurement k USE_HTS221 reading).write.offset = 0 ∧
    (execute_sensor_measurement k USE_HTS221 reading).write.length = 2 ∧
    (execute_sensor_measurement k USE_HTS221 reading).write.buffer.length = 2 := by
  simp [execute_sensor_measurement, int16_object_bytes, SENSOR_FILE_ID, SENSOR_FILE_SIZE]

theorem fs_lookup_append_new (fs : fs_table) (f : fs_file)
    (h : fs_lookup fs f.file_id = none) : fs_lookup (fs ++ [f]) f.file_id = some f := by
  unfold fs_lookup at *
  rw [List.find?_append, h]
  simp

theorem fs_init_file_new (fs : fs_table) (file_id : Nat) (hdr : fs_file_header_t)
    (h : fs_lookup fs file_id = none) :
    fs_init_file fs file_id hdr none =
      .ok (fs ++ [{ file_id := file_id, header := hdr
                    data := List.replicate hdr.allocated_length 0 }]) := by
  simp [fs_init_file, h]

theorem to_uint16_lt (x : Int) : to_uint16 x < 2 ^ 16 := by
  unfold to_uint16
  omega

theorem to_uint16_to_int16 (v : Nat) (h : v < 2 ^ 16) : to_uint16 (to_int16 v) = v := by
  unfold to_uint16 to_int16
  split <;> omega

theorem to_int16_to_uint16 (t : Int) (h : is_int16 t) : to_int16 (to_uint16 t) = t := by
  unfold is_int16 at h
  unfold to_uint16 to_int16
  split <;> omega

theorem builtin_bswap16_lt (u : Nat) : builtin_bswap16 u < 2 ^ 16 := by
  unfold builtin_bswap16
  omega

theorem builtin_bswap16_low (u : Nat) (h : u < 2 ^ 16) :
    builtin_bswap16 u % 2 ^ 8 = u / 2 ^ 8 := by
  unfold builtin_bswap16
  omega

theorem builtin_bswap16_high (u : Nat) :
    (builtin_bswap16 u / 2 ^ 8) % 2 ^ 8 = u % 2 ^ 8 := by
  unfold builtin_bswap16
  have h : (u % 2 ^ 8 * 2 ^ 8 + u / 2 ^ 8 % 2 ^ 8) % 2 ^ 16
      = u % 2 ^ 8 * 2 ^ 8 + u / 2 ^ 8 % 2 ^ 8 := Nat.mod_eq_of_lt (by omega)
  rw [h]
  have hlo : u % 2 ^ 8 < 2 ^ 8 := Nat.mod_lt _ (by norm_num)
  have hhi : u / 2 ^ 8 % 2 ^ 8 < 2 ^ 8 := Nat.mod_lt _ (by norm_num)
  generalize u % 2 ^ 8 = lo at hlo ⊢
  generalize u / 2 ^ 8 % 2 ^ 8 = hi at hhi ⊢
  omega

theorem shiftRight_and_byte (u : Nat) : (u >>> 8) &&& 0xFF = (u / 2 ^ 8) % 2 ^ 8 := by
  rw [Nat.shiftRight_eq_div_pow]
  exact Nat.and_pow_two_sub_one_eq_mod _ 8

theorem and_byte (u : Nat) : u &&& 0xFF = u % 2 ^ 8 :=
  Nat.and_pow_two_sub_one_eq_mod _ 8

theorem int_high_low_byte (t : Int) :
    ((t / 2 ^ 8) % 2 ^ 8).toNat = to_uint16 t / 2 ^ 8 ∧
    (t % 2 ^ 8).toNat = to_uint16 t % 2 ^ 8 := by
  unfold to_uint16
  omega

/-- The two bytes a run hands to `fs_write_file`, in terms of the bit pattern
of the measured value: high byte first. -/
theorem execute_sensor_measurement_buffer (k : StackConsts) (USE_HTS221 : Bool)
    (reading : Int) :
    (execute_sensor_measurement k USE_HTS221 reading).write.buffer =
      [to_uint16 (measured_temperature USE_HTS221 reading) / 2 ^ 8,
       to_uint16 (measured_temperature USE_HTS221 reading) % 2 ^ 8] := by
  have hu := to_uint16_lt (measured_temperature USE_HTS221 reading)
  simp only [execute_sensor_measurement, int16_object_bytes, SENSOR_FILE_SIZE]
  rw [to_uint16_to_int16 _ (builtin_bswap16_lt _), builtin_bswap16_low _ hu,
    builtin_bswap16_high]
  rfl

theorem fs_lookup_map_update (fs : fs_table) (file_id : Nat) (u : fs_file → fs_file)
    (hu : ∀ g, (u g).file_id = g.file_id) :
    fs_lookup (fs.map fun g => if g.file_id == file_id then u g else g) file_id =
      (fs_lookup fs file_id).map u := by
  unfold fs_lookup
  induction fs with
  | nil => rfl
  | cons f rest ih =>
    by_cases hf : f.file_id = file_id
    · simp [List.find?, hf, hu]
    · have hb : (f.file_id == file_id) = false := by simpa using hf
      simp only [List.map_cons, List.find?, hb, Bool.false_eq_true, if_false]
      exact ih

/-- A successful write: the file exists, the range is within the allocated
slot, and afterwards the table holds the updated header and bytes. -/
theorem fs_write_file_ok (p : fs_policy) (fs fs1 : fs_table) (file_id offset : Nat)
    (buffer : List Nat) (h : fs_write_file p fs file_id offset buffer = .ok fs1) :
    ∃ f, fs_lookup fs file_id = some f ∧
      offset + buffer.length ≤ f.header.allocated_length ∧
      p.may_write f.header.file_permissions = true ∧
      fs_lookup fs1 file_id =
        some { f with header := header_after_write f.header offset buffer.length
                      data := data_after_write f.data offset buffer } := by
  unfold fs_write_file at h
  cases hl : fs_lookup fs file_id with
  | none => simp [hl] at h
  | some f =>
    simp only [hl] at h
    by_cases hb : write_in_bounds f.header offset buffer.length = true
    · by_cases hp : p.may_write f.header.file_permissions = true
      · simp only [hb, hp, Bool.not_true, Bool.false_eq_true, if_false] at h
        injection h with h
        subst h
        refine ⟨f, rfl, ?_, hp, ?_⟩
        · simpa [write_in_bounds] using hb
        · rw [fs_lookup_map_update fs file_id
            (fun g => { g with header := header_after_write g.header offset buffer.length
                               data := data_after_write g.data offset buffer })
            (fun _ => rfl), hl]
          rfl
      · simp [hb, hp] at h
    · simp [hb] at h

theorem map_to_uint8_of_bytes (bs : List Nat) (h : ∀ b ∈ bs, b < 2 ^ 8) :
    bs.map to_uint8 = bs := by
  induction bs with
  | nil => rfl
  | cons b rest ih =>
    have hb : to_uint8 b = b := Nat.mod_eq_of_lt (h b (List.mem_cons_self _ _))
    rw [List.map_cons, hb, ih (fun c hc => h c (List.mem_cons_of_mem _ hc))]

theorem decode_encode (k : StackConsts) (cmd : ActionCommand)
    (h : ActionCommand.representable k cmd) : decode k (encode k cmd) = .ok cmd := by
  cases cmd with
  | read_file_data a b c =>
    obtain ⟨ha, hb, hc⟩ := h
    have ha1 : to_uint8 a = a := Nat.mod_eq_of_lt ha
    have hb1 : to_uint8 b = b := Nat.mod_eq_of_lt hb
    have hc1 : to_uint8 c = c := Nat.mod_eq_of_lt hc
    simp [encode, decode, ha1, hb1, hc1]
  | other_op op rest =>
    obtain ⟨hop, hne, hrest⟩ := h
    have hop1 : to_uint8 op = op := Nat.mod_eq_of_lt hop
    simp [encode, decode, hop1, hne, map_to_uint8_of_bytes rest hrest]

theorem encode_decode (k : StackConsts) (bytes : List Nat) (cmd : ActionCommand)
    (hb : ∀ b ∈ bytes, b < 2 ^ 8) (h : decode k bytes = .ok cmd) :
    encode k cmd = bytes ∧ ActionCommand.representable k cmd := by
  cases bytes with
  | nil => simp [decode] at h
  | cons op rest =>
    have hop : op < 2 ^ 8 := hb op (List.mem_cons_self _ _)
    have hrest : ∀ b ∈ rest, b < 2 ^ 8 := fun c hc => hb c (List.mem_cons_of_mem _ hc)
    by_cases hr : op = to_uint8 k.ALP_OP_READ_FILE_DATA
    · simp only [decode, hr, if_true] at h
      match rest, hrest, h with
      | [a, b, c], hrest, h =>
        injection h with h
        subst h
        have ha : a < 2 ^ 8 := hrest a (by simp)
        have hb2 : b < 2 ^ 8 := hrest b (by simp)
        have hc : c < 2 ^ 8 := hrest c (by simp)
        refine ⟨?_, ha, hb2, hc⟩
        simp only [encode, hr]
        rw [show to_uint8 a = a from Nat.mod_eq_of_lt ha,
          show to_uint8 b = b from Nat.mod_eq_of_lt hb2,
          show to_uint8 c = c from Nat.mod_eq_of_lt hc]
      | [], _, h => simp at h
      | [_], _, h => simp at h
      | [_, _], _, h => simp at h
      | _ :: _ :: _ :: _ :: _, _, h => simp at h
    · simp only [decode, hr, if_false] at h
      injection h with h
      subst h
      refine ⟨?_, hop, hr, hrest⟩
      simp only [encode]
      rw [show to_uint8 op = op from Nat.mod_eq_of_lt hop, map_to_uint8_of_bytes rest hrest]

theorem writes_of_append (a b : List app_call) :
    writes_of (a ++ b) = writes_of a ++ writes_of b := by
  simp [writes_of, List.filterMap_append]

theorem writes_of_measurement (k : StackConsts) (USE_HTS221 : Bool) (reading : Int) :
    writes_of (execute_sensor_measurement_calls k USE_HTS221 reading) =
      [(execute_sensor_measurement k USE_HTS221 reading).write] := by
  cases USE_HTS221 <;> rfl

theorem posts_of_measurement (k : StackConsts) (USE_HTS221 : Bool) (reading : Int) :
    posts_of (execute_sensor_measurement_calls k USE_HTS221 reading) =
      [(.execute_sensor_measurement, SENSOR_INTERVAL_SEC k)] := by
  cases USE_HTS221 <;> rfl

theorem posts_of_bootstrap (k : StackConsts) (USE_HTS221 : Bool) :
    posts_of (bootstrap k USE_HTS221) =
      [(.execute_sensor_measurement, SENSOR_INTERVAL_SEC k)] := by
  cases USE_HTS221 <;> rfl

theorem writes_of_bootstrap (k : StackConsts) (USE_HTS221 : Bool) :
    writes_of (bootstrap k USE_HTS221) = [] := by
  cases USE_HTS221 <;> rfl

/-- One step from a state with a single pending measurement. -/
theorem sched_step_single (k : StackConsts) (USE_HTS221 : Bool) (s : sched_state)
    (reading : Int) (d : Nat)
    (hp : s.pending = [{ task := .execute_sensor_measurement, due := d }]) (hn : s.now ≤ d) :
    sched_step k USE_HTS221 s reading =
      { now := d
        pending := [{ task := .execute_sensor_measurement, due := d + SENSOR_INTERVAL_SEC k }]
        trace := s.trace ++ execute_sensor_measurement_calls k USE_HTS221 reading } := by
  have hmax : max s.now d = d := Nat.max_eq_right hn
  simp only [sched_step, hp, earliest, run_task, pending_of, posts_of_measurement, hmax,
    List.erase_cons_head, List.nil_append, List.map_cons, List.map_nil]

/-- Any number of steps from a state with a single pending measurement. -/
theorem sched_steps_single (k : StackConsts) (USE_HTS221 : Bool) (readings : List Int) :
    ∀ (s : sched_state) (d : Nat),
      s.pending = [{ task := .execute_sensor_measurement, due := d }] → s.now ≤ d →
      (readings.foldl (sched_step k USE_HTS221) s).pending =
        [{ task := .execute_sensor_measurement
           due := d + readings.length * SENSOR_INTERVAL_SEC k }] ∧
      writes_of (readings.foldl (sched_step k USE_HTS221) s).trace =
        writes_of s.trace ++
          readings.map (fun r => (execute_sensor_measurement k USE_HTS221 r).write) ∧
      posts_of (readings.foldl (sched_step k USE_HTS221) s).trace =
        posts_of s.trace ++
          readings.map (fun _ => (task_t.execute_sensor_measurement, SENSOR_INTERVAL_SEC k)) := by
  induction readings with
  | nil =>
    intro s d hp _
    simp [hp]
  | cons r rest ih =>
    intro s d hp hn
    have hstep := sched_step_single k USE_HTS221 s r d hp hn
    have h := ih (sched_step k USE_HTS221 s r) (d + SENSOR_INTERVAL_SEC k)
      (by rw [hstep]) (by rw [hstep]; exact Nat.le_add_right _ _)
    obtain ⟨h1, h2, h3⟩ := h
    refine ⟨?_, ?_, ?_⟩
    · rw [List.foldl_cons, h1, List.length_cons]
      congr 2
      rw [Nat.add_mul, Nat.one_mul]
      omega
    · rw [List.foldl_cons, h2, hstep]
      simp only [writes_of_append, writes_of_measurement, List.map_cons, List.append_assoc,
        List.singleton_append]
    · rw [List.foldl_cons, h3, hstep]
      have hpa : ∀ a b : List app_call, posts_of (a ++ b) = posts_of a ++ posts_of b := by
        intro a b
        simp [posts_of, List.filterMap_append]
      simp only [hpa, posts_of_measurement, List.map_cons, List.append_assoc,
        List.singleton_append]

theorem qualifying_write_measurement (k : StackConsts) (USE_HTS221 : Bool) (reading : Int) :
    qualifying_write k (execute_sensor_measurement k USE_HTS221 reading).write = true := by
  have hreg : registered_header k
      (execute_sensor_measurement k USE_HTS221 reading).write.file_id =
      some (file_header k) := rfl
  simp [qualifying_write, hreg, trigger_fires, file_header]

/-! ## Claims -/

/-- C1 (evaluation of the code where the claim fails): `init_user_files` passes
exactly two headers to `fs_init_file`.  The action file header has
`length = allocated_length = 4`, but the sensor file header names `length`
only, so it is registered with `length = 2` and `allocated_length = 0`, and
`length <= allocated_length` does not hold for it. -/
theorem sensor_header_length_exceeds_allocated (k : StackConsts) :
    fs_init_file_headers k =
      [(ACTION_FILE_ID, action_file_header k), (SENSOR_FILE_ID, file_header k)] ∧
    (action_file_header k).length ≤ (action_file_header k).allocated_length ∧
    (file_header k).length = 2 ∧
    (file_header k).allocated_length = 0 ∧
    ¬ ((file_header k).length ≤ (file_header k).allocated_length) := by
  refine ⟨rfl, ?_, rfl, rfl, ?_⟩
  · simp [action_file_header]
  · simp [file_header, SENSOR_FILE_SIZE]

/-- C2 (evaluation of the code where the claim fails): in every table that does
not hold file 0x40 yet, registering the sensor file header succeeds and stores
the header as built (`length = 2`, `allocated_length = 0`); the write of
`execute_sensor_measurement` (offset 0, 2 bytes) then violates
`offset + len <= allocated_length`, and `write_file` fails with `OutOfBounds`
whatever the permission policy and the measured value are. -/
theorem sensor_write_out_of_bounds (k : StackConsts) (p : fs_policy) (USE_HTS221 : Bool)
    (reading : Int) (fs : fs_table) (h : fs_lookup fs SENSOR_FILE_ID = none) :
    ∃ fs1, fs_init_file fs SENSOR_FILE_ID (file_header k) none = .ok fs1 ∧
      header_of fs1 SENSOR_FILE_ID = .ok (file_header k) ∧
      write_in_bounds (file_header k)
        (execute_sensor_measurement k USE_HTS221 reading).write.offset
        (execute_sensor_measurement k USE_HTS221 reading).write.length = false ∧
      fs_write_file p fs1
        (execute_sensor_measurement k USE_HTS221 reading).write.file_id
        (execute_sensor_measurement k USE_HTS221 reading).write.offset
        (execute_sensor_measurement k USE_HTS221 reading).write.buffer = .error .OutOfBounds := by
  obtain ⟨hid, hoff, hlen, hbuf⟩ := execute_sensor_measurement_write_dest k USE_HTS221 reading
  have hl := fs_lookup_append_new fs
    { file_id := SENSOR_FILE_ID, header := file_header k
      data := List.replicate (file_header k).allocated_length 0 } h
  refine ⟨_, fs_init_file_new fs SENSOR_FILE_ID (file_header k) h, ?_, ?_, ?_⟩
  · simp only [header_of, hl]
  · rw [hoff, hlen]
    simp [write_in_bounds, file_header]
  · rw [hid, hoff]
    have hid2 : (0x40 : Nat) = SENSOR_FILE_ID := rfl
    rw [hid2]
    simp only [fs_write_file, hl, hbuf]
    simp [write_in_bounds, file_header]

/-- Witness for C2: the table that holds the action file only. -/
theorem sensor_write_out_of_bounds_witness :
    fs_lookup [{ file_id := ACTION_FILE_ID, header := action_file_header sample_consts
                 data := alp_command sample_consts }] SENSOR_FILE_ID = none ∧
    ∃ fs1, fs_init_file [{ file_id := ACTION_FILE_ID, header := action_file_header sample_consts
                           data := alp_command sample_consts }]
        SENSOR_FILE_ID (file_header sample_consts) none = .ok fs1 ∧
      header_of fs1 SENSOR_FILE_ID = .ok (file_header sample_consts) ∧
      write_in_bounds (file_header sample_consts)
        (execute_sensor_measurement sample_consts true 10).write.offset
        (execute_sensor_measurement sample_consts true 10).write.length = false ∧
      fs_write_file fs_policy_open fs1
        (execute_sensor_measurement sample_consts true 10).write.file_id
        (execute_sensor_measurement sample_consts true 10).write.offset
        (execute_sensor_measurement sample_consts true 10).write.buffer = .error .OutOfBounds :=
  ⟨by decide, sensor_write_out_of_bounds sample_consts fs_policy_open true 10 _ (by decide)⟩

/-- C3: for every 16-bit temperature `t`, the two bytes `execute_sensor_measurement`
hands to `fs_write_file` are the big-endian encoding of `t`: byte 0 is
`(t >> 8) & 0xFF` and byte 1 is `t & 0xFF` (on the two's complement pattern,
and as floor division on the signed value), and reading them back high byte
first gives `t`; `t = 10` is written as `{0x00, 0x0A}`, and without the HTS221
sensor `{0x00, 0x00}` is written. -/
theorem sensor_bytes_big_endian (k : StackConsts) (t : Int) (ht : is_int16 t) :
    (execute_sensor_measurement k true t).write.buffer =
      [(to_uint16 t >>> 8) &&& 0xFF, to_uint16 t &&& 0xFF] ∧
    (execute_sensor_measurement k true t).write.buffer =
      [((t / 2 ^ 8) % 2 ^ 8).toNat, (t % 2 ^ 8).toNat] ∧
    (∀ b0 b1, (execute_sensor_measurement k true t).write.buffer = [b0, b1] →
      b0 < 2 ^ 8 ∧ b1 < 2 ^ 8 ∧ to_int16 (b0 * 2 ^ 8 + b1) = t) ∧
    (execute_sensor_measurement k true 10).write.buffer = [0x00, 0x0A] ∧
    (∀ reading, (execute_sensor_measurement k false reading).write.buffer = [0x00, 0x00]) := by
  have hbuf := execute_sensor_measurement_buffer k true t
  have hm : measured_temperature true t = t := rfl
  rw [hm] at hbuf
  have hu := to_uint16_lt t
  refine ⟨?_, ?_, ?_, ?_, ?_⟩
  · have hhi : to_uint16 t / 2 ^ 8 % 2 ^ 8 = to_uint16 t / 2 ^ 8 :=
      Nat.mod_eq_of_lt (by omega)
    rw [hbuf, shiftRight_and_byte, and_byte, hhi]
  · rw [hbuf, (int_high_low_byte t).1, (int_high_low_byte t).2]
  · intro b0 b1 h
    rw [hbuf] at h
    injection h with h0 h1
    injection h1 with h1 _
    subst h0 h1
    refine ⟨by omega, by omega, ?_⟩
    have : to_uint16 t / 2 ^ 8 * 2 ^ 8 + to_uint16 t % 2 ^ 8 = to_uint16 t := by omega
    rw [this]
    exact to_int16_to_uint16 t ht
  · rw [execute_sensor_measurement_buffer]
    rfl
  · intro reading
    have h0 : measured_temperature false reading = 0 := rfl
    rw [execute_sensor_measurement_buffer, h0]
    rfl

/-- Witness for C3: a reading of -2 dC is written as `{0xFF, 0xFE}`. -/
theorem sensor_bytes_big_endian_witness :
    is_int16 (-2) ∧
    (execute_sensor_measurement sample_consts true (-2)).write.buffer =
      [(to_uint16 (-2) >>> 8) &&& 0xFF, to_uint16 (-2) &&& 0xFF] ∧
    (execute_sensor_measurement sample_consts true (-2)).write.buffer = [0xFF, 0xFE] :=
  ⟨by decide, (sensor_bytes_big_endian sample_consts (-2) (by decide)).1, by decide⟩

/-- C4: the action command stored in file 0x41 is the 4-byte sequence
`[ALP_OP_READ_FILE_DATA, 0x40, 0, 2]`, the opcode byte followed by exactly 3
operand bytes; `init_user_files` registers it first, under identifier 0x41,
with a header whose `length` and `allocated_length` both equal 4, the size of
the command. -/
theorem action_command_well_formed (k : StackConsts) (hop : k.ALP_OP_READ_FILE_DATA < 2 ^ 8) :
    alp_command k = [k.ALP_OP_READ_FILE_DATA, 0x40, 0, 2] ∧
    (alp_command k).head? = some k.ALP_OP_READ_FILE_DATA ∧
    (alp_command k).tail = [SENSOR_FILE_ID, 0, SENSOR_FILE_SIZE] ∧
    (alp_command k).tail.length = 3 ∧
    (init_user_files k).head? =
      some (.fs_init_file 0x41 (action_file_header k) (some (alp_command k))) ∧
    (action_file_header k).length = 4 ∧
    (action_file_header k).allocated_length = 4 ∧
    (action_file_header k).length = (alp_command k).length ∧
    (action_file_header k).allocated_length = (alp_command k).length := by
  have h : alp_command k = [k.ALP_OP_READ_FILE_DATA, 0x40, 0, 2] := by
    simp only [alp_command, to_uint8, SENSOR_FILE_ID, SENSOR_FILE_SIZE]
    rw [Nat.mod_eq_of_lt hop]
    rfl
  refine ⟨h, ?_, ?_, ?_, rfl, rfl, rfl, ?_, ?_⟩ <;> rw [h] <;> rfl

/-- Witness for C4: the opcode value 1. -/
theorem action_command_well_formed_witness :
    sample_consts.ALP_OP_READ_FILE_DATA < 2 ^ 8 ∧
    alp_command sample_consts = [1, 0x40, 0, 2] ∧
    (action_file_header sample_consts).length = 4 :=
  ⟨by decide,
   (action_command_well_formed sample_consts (by decide)).1,
   (action_command_well_formed sample_consts (by decide)).2.2.2.2.2.1⟩

/-- C5 (evaluation of the code where the claim fails): the read range encoded
in the stored action command (target file id, offset, requested length) is the
destination of the write in `execute_sensor_measurement` (file 0x40, offset 0,
`SENSOR_FILE_SIZE` bytes, and the buffer holds exactly that many bytes).  But
in every table in which file 0x40 is registered with the header
`init_user_files` builds (`allocated_length = 0`), that write is rejected with
`OutOfBounds`, and reading the command's range fails with `OutOfBounds` too:
the action does not read back the bytes of the write. -/
theorem action_read_back_out_of_bounds (k : StackConsts) (p : fs_policy)
    (USE_HTS221 : Bool) (reading : Int) (fs : fs_table)
    (h : header_of fs SENSOR_FILE_ID = .ok (file_header k)) :
    (alp_command k).tail =
      [(execute_sensor_measurement k USE_HTS221 reading).write.file_id,
       (execute_sensor_measurement k USE_HTS221 reading).write.offset,
       (execute_sensor_measurement k USE_HTS221 reading).write.length] ∧
    (execute_sensor_measurement k USE_HTS221 reading).write.file_id = SENSOR_FILE_ID ∧
    (execute_sensor_measurement k USE_HTS221 reading).write.offset = 0 ∧
    (execute_sensor_measurement k USE_HTS221 reading).write.length = SENSOR_FILE_SIZE ∧
    (execute_sensor_measurement k USE_HTS221 reading).write.buffer.length =
      (execute_sensor_measurement k USE_HTS221 reading).write.length ∧
    decode k (alp_command k) =
      .ok (.read_file_data
        (execute_sensor_measurement k USE_HTS221 reading).write.file_id
        (execute_sensor_measurement k USE_HTS221 reading).write.offset
        (execute_sensor_measurement k USE_HTS221 reading).write.length) ∧
    fs_write_file p fs
      (execute_sensor_measurement k USE_HTS221 reading).write.file_id
      (execute_sensor_measurement k USE_HTS221 reading).write.offset
      (execute_sensor_measurement k USE_HTS221 reading).write.buffer = .error .OutOfBounds ∧
    fs_read_file p fs
      (execute_sensor_measurement k USE_HTS221 reading).write.file_id
      (execute_sensor_measurement k USE_HTS221 reading).write.offset
      (execute_sensor_measurement k USE_HTS221 reading).write.length = .error .OutOfBounds := by
  obtain ⟨hid, hoff, hlen, hbuf⟩ := execute_sensor_measurement_write_dest k USE_HTS221 reading
  have htail : (alp_command k).tail = [0x40, 0, 2] := rfl
  have hdec : decode k (alp_command k) = .ok (.read_file_data 0x40 0 2) := by
    simp [decode, alp_command]
    decide
  have hid2 : (0x40 : Nat) = SENSOR_FILE_ID := rfl
  have hlen2 : (2 : Nat) = SENSOR_FILE_SIZE := rfl
  obtain ⟨f, hf, hhdr⟩ : ∃ f, fs_lookup fs SENSOR_FILE_ID = some f ∧
      f.header = file_header k := by
    unfold header_of at h
    cases hl : fs_lookup fs SENSOR_FILE_ID with
    | none => simp [hl] at h
    | some f =>
      simp only [hl] at h
      injection h with h
      exact ⟨f, rfl, h⟩
  refine ⟨?_, hid, hoff, ?_, ?_, ?_, ?_, ?_⟩
  · rw [htail, hid, hoff, hlen]
  · exact hlen
  · rw [hbuf, hlen]
  · rw [hid, hoff, hlen]
    exact hdec
  · rw [hid, hoff, hid2]
    simp only [fs_write_file, hf, hbuf, hhdr]
    simp [write_in_bounds, file_header]
  · rw [hid, hoff, hlen, hid2]
    simp only [fs_read_file, hf, hhdr]
    simp [file_header]

/-- Witness for C5: the table obtained by registering the action file and then
the sensor file; a reading of 7 dC is rejected and the command's range cannot
be read. -/
theorem action_read_back_out_of_bounds_witness :
    fs_init_file
      [{ file_id := ACTION_FILE_ID, header := action_file_header sample_consts
         data := alp_command sample_consts }]
      SENSOR_FILE_ID (file_header sample_consts) none =
      .ok [{ file_id := ACTION_FILE_ID, header := action_file_header sample_consts
             data := alp_command sample_consts },
           { file_id := SENSOR_FILE_ID, header := file_header sample_consts, data := [] }] ∧
    header_of
      [{ file_id := ACTION_FILE_ID, header := action_file_header sample_consts
         data := alp_command sample_consts },
       { file_id := SENSOR_FILE_ID, header := file_header sample_consts, data := [] }]
      SENSOR_FILE_ID = .ok (file_header sample_consts) ∧
    fs_write_file fs_policy_open
      [{ file_id := ACTION_FILE_ID, header := action_file_header sample_consts
         data := alp_command sample_consts },
       { file_id := SENSOR_FILE_ID, header := file_header sample_consts, data := [] }]
      (execute_sensor_measurement sample_consts true 7).write.file_id
      (execute_sensor_measurement sample_consts true 7).write.offset
      (execute_sensor_measurement sample_consts true 7).write.buffer = .error .OutOfBounds ∧
    fs_read_file fs_policy_open
      [{ file_id := ACTION_FILE_ID, header := action_file_header sample_consts
         data := alp_command sample_consts },
       { file_id := SENSOR_FILE_ID, header := file_header sample_consts, data := [] }]
      (execute_sensor_measurement sample_consts true 7).write.file_id
      (execute_sensor_measurement sample_consts true 7).write.offset
      (execute_sensor_measurement sample_consts true 7).write.length = .error .OutOfBounds :=
  ⟨rfl, rfl,
   (action_read_back_out_of_bounds sample_consts fs_policy_open true 7
     [{ file_id := ACTION_FILE_ID, header := action_file_header sample_consts
        data := alp_command sample_consts },
      { file_id := SENSOR_FILE_ID, header := file_header sample_consts, data := [] }]
     rfl).2.2.2.2.2.2.1,
   (action_read_back_out_of_bounds sample_consts fs_policy_open true 7
     [{ file_id := ACTION_FILE_ID, header := action_file_header sample_consts
        data := alp_command sample_consts },
      { file_id := SENSOR_FILE_ID, header := file_header sample_consts, data := [] }]
     rfl).2.2.2.2.2.2.2⟩

/-- C6: `init_user_files` registers the identifiers 0x41, 0x42, 0x40 in this
order; they are pairwise distinct, the sensor file 0x40 is registered last, and
every action-enabled header in the sequence (the sensor file's) has an
`alp_cmd_file_id` (0x41) and an `interface_file_id` (0x42) that were registered
earlier in the sequence. -/
theorem init_user_files_ids_distinct_and_ordered (k : StackConsts) :
    (init_user_files k).map fs_init_call.file_id = [0x41, 0x42, 0x40] ∧
    ((init_user_files k).map fs_init_call.file_id).Nodup ∧
    ACTION_FILE_ID ≠ INTERFACE_FILE_ID ∧ ACTION_FILE_ID ≠ SENSOR_FILE_ID ∧
    INTERFACE_FILE_ID ≠ SENSOR_FILE_ID ∧
    (init_user_files k).get? 2 = some (.fs_init_file SENSOR_FILE_ID (file_header k) none) ∧
    (file_header k).alp_cmd_file_id = 0x41 ∧
    (file_header k).interface_file_id = 0x42 ∧
    (file_header k).alp_cmd_file_id ∈ ((init_user_files k).take 2).map fs_init_call.file_id ∧
    (file_header k).interface_file_id ∈ ((init_user_files k).take 2).map fs_init_call.file_id ∧
    ∀ (i file_id : Nat) (hdr : fs_file_header_t) (initial_data : Option (List Nat)),
      (init_user_files k).get? i = some (.fs_init_file file_id hdr initial_data) →
      hdr.file_properties.action_protocol_enabled = true →
      hdr.alp_cmd_file_id ∈ ((init_user_files k).take i).map fs_init_call.file_id ∧
      hdr.interface_file_id ∈ ((init_user_files k).take i).map fs_init_call.file_id := by
  have hids : (init_user_files k).map fs_init_call.file_id = [0x41, 0x42, 0x40] := rfl
  have hpre : ((init_user_files k).take 2).map fs_init_call.file_id = [0x41, 0x42] := rfl
  have hcmd : (file_header k).alp_cmd_file_id = 0x41 := rfl
  have hitf : (file_header k).interface_file_id = 0x42 := rfl
  have hin1 : (file_header k).alp_cmd_file_id ∈
      ((init_user_files k).take 2).map fs_init_call.file_id := by
    rw [hpre, hcmd]; decide
  have hin2 : (file_header k).interface_file_id ∈
      ((init_user_files k).take 2).map fs_init_call.file_id := by
    rw [hpre, hitf]; decide
  refine ⟨hids, by rw [hids]; decide, by decide, by decide, by decide, rfl, hcmd, hitf,
    hin1, hin2, ?_⟩
  intro i file_id hdr initial_data hget hen
  match i, hget with
  | 0, hget =>
    simp only [init_user_files, List.get?] at hget
    injection hget with hget
    injection hget with _ hh _
    subst hh
    simp [action_file_header] at hen
  | 1, hget => simp [init_user_files, List.get?] at hget
  | 2, hget =>
    simp only [init_user_files, List.get?] at hget
    injection hget with hget
    injection hget with _ hh _
    subst hh
    exact ⟨hin1, hin2⟩
  | n + 3, hget => simp [init_user_files, List.get?] at hget

/-- Witness for C6: the registration at position 2 is the action-enabled
sensor file, and both files it refers to come earlier. -/
theorem init_user_files_ids_distinct_and_ordered_witness :
    (init_user_files sample_consts).get? 2 =
      some (.fs_init_file SENSOR_FILE_ID (file_header sample_consts) none) ∧
    (file_header sample_consts).file_properties.action_protocol_enabled = true ∧
    ((file_header sample_consts).alp_cmd_file_id ∈
        ((init_user_files sample_consts).take 2).map fs_init_call.file_id ∧
      (file_header sample_consts).interface_file_id ∈
        ((init_user_files sample_consts).take 2).map fs_init_call.file_id) :=
  ⟨rfl, rfl,
   (init_user_files_ids_distinct_and_ordered sample_consts).2.2.2.2.2.2.2.2.2.2
     2 SENSOR_FILE_ID (file_header sample_consts) none rfl rfl⟩

/-- C7: of the headers `init_user_files` builds, exactly the sensor file 0x40 is
action-enabled: it has `action_protocol_enabled = 1`, `action_condition` write,
storage class volatile, `length` 2, `alp_cmd_file_id = 0x41` and
`interface_file_id = 0x42`; the action file 0x41 has
`action_protocol_enabled = 0` and storage class permanent, so no event on the
action file fires a trigger, and the sensor file's trigger fires on the write
event and on no other one. -/
theorem only_sensor_file_action_enabled (k : StackConsts) :
    (fs_init_file_headers k).filter
        (fun h => h.2.file_properties.action_protocol_enabled) =
      [(0x40, file_header k)] ∧
    (fs_init_file_headers k).filter
        (fun h => !h.2.file_properties.action_protocol_enabled) =
      [(0x41, action_file_header k)] ∧
    (file_header k).file_properties.action_protocol_enabled = true ∧
    (file_header k).file_properties.action_condition = k.ALP_ACT_COND_WRITE ∧
    (file_header k).file_properties.storage_class = k.FS_STORAGE_VOLATILE ∧
    (file_header k).length = 2 ∧
    (file_header k).alp_cmd_file_id = 0x41 ∧
    (file_header k).interface_file_id = 0x42 ∧
    (action_file_header k).file_properties.action_protocol_enabled = false ∧
    (action_file_header k).file_properties.storage_class = k.FS_STORAGE_PERMANENT ∧
    (∀ event, trigger_fires (action_file_header k) event = false) ∧
    (∀ event, trigger_fires (file_header k) event = true ↔ event = k.ALP_ACT_COND_WRITE) := by
  refine ⟨rfl, rfl, rfl, rfl, rfl, rfl, rfl, rfl, rfl, rfl, fun _ => rfl, fun event => ?_⟩
  simp [trigger_fires, file_header]

/-- C8: the interface configuration registered as file 0x42 requests no
acknowledgement and no retry: `qos_resp_mode = SESSION_RESP_MODE_NO`,
`qos_retry_mode = SESSION_RETRY_MODE_NO`, `qos_stop_on_error = false`,
`qos_record = false`, `dormant_timeout = 0`; its addressee has `AES_NONE`,
`ID_TYPE_NOID`, id 0 and access class 0x01, the access class `bootstrap` passes
in `fs_init_args`. -/
theorem interface_config_no_ack_no_retry (k : StackConsts) :
    (init_user_files k).get? 1 =
      some (.fs_init_file_with_d7asp_interface_config 0x42 (session_config k)) ∧
    (session_config k).qos.qos_resp_mode = k.SESSION_RESP_MODE_NO ∧
    (session_config k).qos.qos_retry_mode = k.SESSION_RETRY_MODE_NO ∧
    (session_config k).qos.qos_stop_on_error = false ∧
    (session_config k).qos.qos_record = false ∧
    (session_config k).dormant_timeout = 0 ∧
    (session_config k).addressee.ctrl.nls_method = k.AES_NONE ∧
    (session_config k).addressee.ctrl.id_type = k.ID_TYPE_NOID ∧
    (session_config k).addressee.id = 0 ∧
    (session_config k).addressee.access_class = 0x01 ∧
    (session_config k).addressee.access_class = fs_init_args.access_class :=
  ⟨rfl, rfl, rfl, rfl, rfl, rfl, rfl, rfl, rfl, rfl, rfl⟩

/-- C9: `decode (encode cmd) = cmd` for every representable `ActionCommand`;
`encode` inverts `decode` on every byte sequence `decode` accepts (which then
decodes to a representable command); and the hand-encoded command of
`init_user_files` decodes to {read file data, target 0x40, offset 0, length 2}
and re-encodes to the same 4 bytes. -/
theorem codec_round_trip (k : StackConsts) :
    (∀ cmd, ActionCommand.representable k cmd → decode k (encode k cmd) = .ok cmd) ∧
    (∀ bytes cmd, (∀ b ∈ bytes, b < 2 ^ 8) → decode k bytes = .ok cmd →
      encode k cmd = bytes ∧ ActionCommand.representable k cmd) ∧
    decode k (alp_command k) = .ok (.read_file_data 0x40 0 2) ∧
    encode k (.read_file_data 0x40 0 2) = alp_command k ∧
    (alp_command k).length = 4 :=
  ⟨decode_encode k, encode_decode k, by simp [decode, alp_command]; decide, rfl, rfl⟩

/-- Witness for C9: a command with another opcode and two operand bytes. -/
theorem codec_round_trip_witness :
    ActionCommand.representable sample_consts (.other_op 0x20 [0x41, 0x07]) ∧
    decode sample_consts (encode sample_consts (.other_op 0x20 [0x41, 0x07])) =
      .ok (.other_op 0x20 [0x41, 0x07]) ∧
    (∀ b ∈ [0x20, 0x41, 0x07], b < 2 ^ 8) ∧
    decode sample_consts [0x20, 0x41, 0x07] = .ok (.other_op 0x20 [0x41, 0x07]) ∧
    encode sample_consts (.other_op 0x20 [0x41, 0x07]) = [0x20, 0x41, 0x07] :=
  have hrep : ActionCommand.representable sample_consts (.other_op 0x20 [0x41, 0x07]) :=
    ⟨by decide, by decide, by decide⟩
  have hbytes : ∀ b ∈ [0x20, 0x41, 0x07], b < 2 ^ 8 := by decide
  ⟨hrep, (codec_round_trip sample_consts).1 _ hrep, hbytes, rfl,
   ((codec_round_trip sample_consts).2.1 [0x20, 0x41, 0x07] _ hbytes rfl).1⟩

/-- C10 (evaluation of the code where the claim fails): the variable
`temperature` is overwritten with its byte swap before it is logged, so for a
measured 10 dC the integer passed to the "temp %i dC" message is 2560, not 10;
without a sensor (0 dC) the logged value is 0. -/
theorem logged_value_is_byte_swapped (k : StackConsts) :
    (execute_sensor_measurement k true 10).logged = 2560 ∧
    (execute_sensor_measurement k true 10).logged ≠ 10 ∧
    (execute_sensor_measurement k true 10).write.buffer = [0x00, 0x0A] ∧
    (∀ reading, (execute_sensor_measurement k false reading).logged = 0) ∧
    (∀ t, (execute_sensor_measurement k true t).logged =
      to_int16 (builtin_bswap16 (to_uint16 t))) := by
  have hlog : (execute_sensor_measurement k true 10).logged = 2560 := by
    show to_int16 (builtin_bswap16 (to_uint16 10)) = 2560
    decide
  refine ⟨hlog, by rw [hlog]; decide, ?_, fun reading => ?_, fun _ => rfl⟩
  · rw [execute_sensor_measurement_buffer]
    rfl
  · have h0 : measured_temperature false reading = 0 := rfl
    simp only [execute_sensor_measurement, h0]
    decide

/-- C11: every run of `execute_sensor_measurement` makes exactly one
`fs_write_file` call, to file 0x40, and after it exactly one
`timer_post_task_delay` call, for itself with delay
`SENSOR_INTERVAL_SEC = TIMER_TICKS_PER_SEC * 1`; `bootstrap` writes nothing and
posts the task once.  Hence after `bootstrap` and any number of steps exactly
one invocation of `execute_sensor_measurement` is pending (due one interval
after the last run), and the writes made are exactly one per measurement, each
a qualifying write to the action-enabled sensor file. -/
theorem one_write_one_post_per_measurement (k : StackConsts) (USE_HTS221 : Bool) :
    (∀ reading : Int,
      (execute_sensor_measurement_calls k USE_HTS221 reading).filter is_write_or_post =
        [ .fs_write_file (execute_sensor_measurement k USE_HTS221 reading).write,
          .timer_post_task_delay .execute_sensor_measurement (SENSOR_INTERVAL_SEC k) ] ∧
      (execute_sensor_measurement k USE_HTS221 reading).write.file_id = 0x40 ∧
      qualifying_write k (execute_sensor_measurement k USE_HTS221 reading).write = true) ∧
    SENSOR_INTERVAL_SEC k = k.TIMER_TICKS_PER_SEC * 1 ∧
    (bootstrap k USE_HTS221).filter is_write_or_post =
      [.timer_post_task_delay .execute_sensor_measurement (SENSOR_INTERVAL_SEC k)] ∧
    ∀ readings : List Int,
      (sched_run k USE_HTS221 readings).pending =
        [{ task := .execute_sensor_measurement
           due := (readings.length + 1) * k.TIMER_TICKS_PER_SEC }] ∧
      ((sched_run k USE_HTS221 readings).pending.filter
        fun p => p.task == .execute_sensor_measurement).length = 1 ∧
      writes_of (sched_run k USE_HTS221 readings).trace =
        readings.map (fun r => (execute_sensor_measurement k USE_HTS221 r).write) ∧
      (writes_of (sched_run k USE_HTS221 readings).trace).length = readings.length ∧
      ((writes_of (sched_run k USE_HTS221 readings).trace).filter
        (qualifying_write k)).length = readings.length ∧
      (posts_of (sched_run k USE_HTS221 readings).trace).length = readings.length + 1 := by
  refine ⟨fun reading => ⟨?_, rfl, qualifying_write_measurement k USE_HTS221 reading⟩,
    rfl, ?_, fun readings => ?_⟩
  · cases USE_HTS221 <;> rfl
  · cases USE_HTS221 <;> rfl
  · have hboot : (sched_boot k USE_HTS221).pending =
        [{ task := .execute_sensor_measurement, due := SENSOR_INTERVAL_SEC k }] := by
      simp [sched_boot, pending_of, posts_of_bootstrap]
    obtain ⟨h1, h2, h3⟩ := sched_steps_single k USE_HTS221 readings
      (sched_boot k USE_HTS221) (SENSOR_INTERVAL_SEC k) hboot (Nat.zero_le _)
    have hw0 : writes_of (sched_boot k USE_HTS221).trace = [] := writes_of_bootstrap k USE_HTS221
    have hp0 : posts_of (sched_boot k USE_HTS221).trace =
        [(.execute_sensor_measurement, SENSOR_INTERVAL_SEC k)] := posts_of_bootstrap k USE_HTS221
    rw [hw0, List.nil_append] at h2
    rw [hp0] at h3
    have hpend : (sched_run k USE_HTS221 readings).pending =
        [{ task := .execute_sensor_measurement
           due := (readings.length + 1) * k.TIMER_TICKS_PER_SEC }] := by
      unfold sched_run
      rw [h1]
      congr 2
      simp only [SENSOR_INTERVAL_SEC, Nat.mul_one]
      rw [Nat.add_mul, Nat.one_mul, Nat.add_comm]
    have hwr : writes_of (sched_run k USE_HTS221 readings).trace =
        readings.map (fun r => (execute_sensor_measurement k USE_HTS221 r).write) := h2
    refine ⟨hpend, by rw [hpend]; rfl, hwr, by rw [hwr, List.length_map], ?_, ?_⟩
    · rw [hwr, List.filter_eq_self.mpr, List.length_map]
      intro w hw
      obtain ⟨r, _, hr⟩ := List.mem_map.mp hw
      rw [← hr]
      exact qualifying_write_measurement k USE_HTS221 r
    · unfold sched_run
      rw [h3]
      simp

end SensorAction

namespace CC430

theorem floor_of_bounds (x : ℚ) (z : ℤ) (h1 : (z : ℚ) ≤ x) (h2 : x < z + 1) : ⌊x⌋ = z :=
  Int.floor_eq_iff.mpr ⟨h1, h2⟩

/-- C12: every single-event flag documented as RFIFGn (n = 0..15) is the single
bit `1 << n`; every row documented as Positive Edge has flank 0 and every row
documented as Negative Edge has its flank equal to its flag, so
`FLANK & ~FLAG = 0` in every row; every n in 0..15 has a row; the OR of all
single-event flags is 0xFFFF, which is both `RFIFG_FLAG_AllPositiveEdge` and
`RFIFG_FLAG_AllNegativeEdge`, whose flanks are 0x0000 and 0xFFFF. -/
theorem rfifg_table_consistent :
    (∀ e ∈ rfifg_table,
      e.rfifg ≤ 15 ∧ e.flag = 1 <<< e.rfifg ∧
      (e.edge = .positive → e.flank = 0) ∧
      (e.edge = .negative → e.flank = e.flag) ∧
      e.flank &&& u16_not e.flag = 0) ∧
    (∀ n < 16, ∃ e ∈ rfifg_table, e.rfifg = n) ∧
    rfifg_table.length = 29 ∧
    rfifg_flags_or rfifg_table = 0xFFFF ∧
    RFIFG_FLAG_AllPositiveEdge = 0xFFFF ∧
    RFIFG_FLAG_AllNegativeEdge = 0xFFFF ∧
    RFIFG_FLANK_AllPositiveEdge = 0x0000 ∧
    RFIFG_FLANK_AllNegativeEdge = 0xFFFF ∧
    RFIFG_FLANK_AllPositiveEdge &&& u16_not RFIFG_FLAG_AllPositiveEdge = 0 ∧
    RFIFG_FLANK_AllNegativeEdge &&& u16_not RFIFG_FLAG_AllNegativeEdge = 0 := by
  refine ⟨by decide, by decide, rfl, by decide, by decide, by decide, by decide, by decide,
    by decide, by decide⟩

/-- Witness for C12: the row of `RXDrained` (RFIFG3, Negative Edge). -/
theorem rfifg_table_consistent_witness :
    ({ flag := RFIFG_FLAG_RXDrained, flank := RFIFG_FLANK_RXDrained, rfifg := 3
       edge := .negative } : rfifg_entry) ∈ rfifg_table ∧
    RFIFG_FLAG_RXDrained = 1 <<< 3 ∧
    RFIFG_FLANK_RXDrained = RFIFG_FLAG_RXDrained :=
  ⟨by decide,
   (rfifg_table_consistent.1
     { flag := RFIFG_FLAG_RXDrained, flank := RFIFG_FLANK_RXDrained, rfifg := 3
       edge := .negative } (by decide)).2.1,
   (rfifg_table_consistent.1
     { flag := RFIFG_FLAG_RXDrained, flank := RFIFG_FLANK_RXDrained, rfifg := 3
       edge := .negative } (by decide)).2.2.2.1 rfl⟩

/-- C13: with fxosc = 26 MHz and the formulas and values of the comments, in
exact rational arithmetic: fIF is 152.34375 kHz exactly (and 26 MHz is the
only crystal frequency for which it is); the channel bandwidth is 162.5 kHz
exactly; the data rate is 55541.9921875 Baud, which rounds to 55.542 kBaud; the
channel spacing is 107910.15625 Hz, which rounds to 107.910 kHz; the deviation
is 50781.25 Hz, which rounds to 50.78 kHz; `RADIO_FREQ2`, `RADIO_FREQ1`,
`RADIO_FREQ0` are the bytes 0x10, 0xA9, 0x00 of `RADIO_FREQ_433 = 0x0010A900`,
whose carrier frequency is 433.1640625 MHz exactly, of which the documented
433.164062 MHz is the value cut after six decimals, half a unit of the last
digit away.  Every documented value fits the register field of its macro. -/
theorem radio_documentation_consistent :
    RADIO_FREQ_IF = 0x06 ∧
    fIF fxosc_26MHz RADIO_FREQ_IF / 1000 = 152.34375 ∧
    (∀ f : ℚ, fIF f RADIO_FREQ_IF / 1000 = 152.34375 ↔ f = fxosc_26MHz) ∧
    BDW fxosc_26MHz radio_doc.chanbw_M radio_doc.chanbw_E / 1000 = 162.5 ∧
    DRate fxosc_26MHz radio_doc.drate_M radio_doc.drate_E = 55541.9921875 ∧
    round_decimals (DRate fxosc_26MHz radio_doc.drate_M radio_doc.drate_E / 1000) 3 = 55.542 ∧
    chanspc fxosc_26MHz radio_doc.chanspc_M radio_doc.chanspc_E = 107910.15625 ∧
    round_decimals (chanspc fxosc_26MHz radio_doc.chanspc_M radio_doc.chanspc_E / 1000) 3 =
      107.910 ∧
    dev fxosc_26MHz radio_doc.deviatn_M radio_doc.deviatn_E = 50781.25 ∧
    round_decimals (dev fxosc_26MHz radio_doc.deviatn_M radio_doc.deviatn_E / 1000) 2 = 50.78 ∧
    RADIO_FREQ_433 = 0x0010A900 ∧
    RADIO_FREQ2 = 0x10 ∧ RADIO_FREQ1 = 0xA9 ∧ RADIO_FREQ0 = 0x00 ∧
    RADIO_FREQ_433 = RADIO_FREQ2 * 2 ^ 16 + RADIO_FREQ1 * 2 ^ 8 + RADIO_FREQ0 ∧
    fc fxosc_26MHz RADIO_FREQ_433 / 10 ^ 6 = 433.1640625 ∧
    trunc_decimals (fc fxosc_26MHz RADIO_FREQ_433 / 10 ^ 6) 6 = 433.164062 ∧
    fc fxosc_26MHz RADIO_FREQ_433 / 10 ^ 6 - 433.164062 = 1 / 2 * (1 / 10 ^ 6) ∧
    RADIO_MDMCFG4_CHANBW_E radio_doc.chanbw_E = radio_doc.chanbw_E <<< 6 ∧
    RADIO_MDMCFG4_CHANBW_M radio_doc.chanbw_M = radio_doc.chanbw_M <<< 4 ∧
    RADIO_MDMCFG4_DRATE_E radio_doc.drate_E = radio_doc.drate_E ∧
    RADIO_MDMCFG3_DRATE_M radio_doc.drate_M = radio_doc.drate_M ∧
    RADIO_MDMCFG1_CHANSPC_E radio_doc.chanspc_E = radio_doc.chanspc_E ∧
    RADIO_MDMCFG0_CHANSPC_M radio_doc.chanspc_M = radio_doc.chanspc_M ∧
    RADIO_DEVIATN_E radio_doc.deviatn_E = radio_doc.deviatn_E <<< 4 ∧
    RADIO_DEVIATN_M radio_doc.deviatn_M = radio_doc.deviatn_M := by
  have hfreq : RADIO_FREQ_433 = 0x0010A900 := by decide
  have hdr : ⌊DRate fxosc_26MHz radio_doc.drate_M radio_doc.drate_E / 1000 * 10 ^ 3 + 1 / 2⌋
      = 55542 := by
    apply floor_of_bounds <;> norm_num [DRate, fxosc_26MHz, radio_doc]
  have hcs : ⌊chanspc fxosc_26MHz radio_doc.chanspc_M radio_doc.chanspc_E / 1000 * 10 ^ 3
      + 1 / 2⌋ = 107910 := by
    apply floor_of_bounds <;> norm_num [chanspc, fxosc_26MHz, radio_doc]
  have hdv : ⌊dev fxosc_26MHz radio_doc.deviatn_M radio_doc.deviatn_E / 1000 * 10 ^ 2
      + 1 / 2⌋ = 5078 := by
    apply floor_of_bounds <;> norm_num [dev, fxosc_26MHz, radio_doc]
  have hfc : ⌊fc fxosc_26MHz RADIO_FREQ_433 / 10 ^ 6 * 10 ^ 6⌋ = 433164062 := by
    rw [hfreq]
    apply floor_of_bounds <;> norm_num [fc, fxosc_26MHz]
  refine ⟨rfl, ?_, ?_, ?_, ?_, ?_, ?_, ?_, ?_, ?_, hfreq, by decide, by decide, by decide,
    by decide, ?_, ?_, ?_, by decide, by decide, by decide, rfl, by decide, rfl, by decide,
    by decide⟩
  · norm_num [fIF, fxosc_26MHz, RADIO_FREQ_IF]
  · intro f
    constructor
    · intro h
      simp only [fIF, RADIO_FREQ_IF, fxosc_26MHz] at h ⊢
      have h2 : f = 152.34375 * 1000 * 2 ^ 10 / 6 := by
        rw [← h]
        push_cast
        ring
      rw [h2]
      norm_num
    · intro h
      rw [h]
      norm_num [fIF, fxosc_26MHz, RADIO_FREQ_IF]
  · norm_num [BDW, fxosc_26MHz, radio_doc]
  · norm_num [DRate, fxosc_26MHz, radio_doc]
  · rw [round_decimals, hdr]
    norm_num
  · norm_num [chanspc, fxosc_26MHz, radio_doc]
  · rw [round_decimals, hcs]
    norm_num
  · norm_num [dev, fxosc_26MHz, radio_doc]
  · rw [round_decimals, hdv]
    norm_num
  · rw [hfreq]
    norm_num [fc, fxosc_26MHz]
  · rw [trunc_decimals, hfc]
    norm_num
  · rw [hfreq]
    norm_num [fc, fxosc_26MHz]

end CC430
